import Mathlib

/-!
Verification of the Linescope I1 core (codec, extractor, store).

Shallow embedding of the I1 frame codec (`utils/i1/protocol.py`), the frame
extractor and connection-handler ACK logic (`utils/i1/server.py`), and the
in-memory telemetry store (`utils/i1/store.py`).

Modelling conventions:
* Python `bytes` values are `List Nat`, each element intended in `0..255`
  (hypotheses state the bound where arithmetic depends on it).
* Machine integers are `Nat` with explicit masks (`&&& 0xFFFF`, `% 256`)
  exactly where the source masks.
* IEEE-754 `f32` fields decoded by `struct.unpack("<f", ...)` are kept as
  their little-endian 4-byte bit pattern (a `Nat < 2^32`).  The bit pattern
  determines the float value, and no verified property depends on the
  numeric interpretation of a float field.
* Values on which the source performs real arithmetic (`humidity_raw / 10.0`,
  temperature-threshold comparison, `round(x, 2)`) are modelled in `ℚ`.
* Fallible Python code (raise/except) is `Except` / `Option`.
-/

/-! ## Protocol constants (`protocol.py`) -/

def SYNC_BYTES : List Nat := [0x5A, 0xA5]

def END_BYTE : Nat := 0x96

def FRAME_TYPE_UPLINK : Nat := 0x01

def FRAME_TYPE_DOWNLINK : Nat := 0x02

def PACKET_TYPE_WEATHER : Nat := 0x31

def PACKET_TYPE_TOWER_TILT : Nat := 0x32

def PACKET_TYPE_LINE_TEMPERATURE : Nat := 0x33

def PACKET_TYPE_HEARTBEAT : Nat := 0x61

def PACKET_TYPE_WEATHER_ACK : Nat := 0xB1

def PACKET_TYPE_TOWER_TILT_ACK : Nat := 0xB2

def PACKET_TYPE_LINE_TEMPERATURE_ACK : Nat := 0xB3

def PACKET_TYPE_HEARTBEAT_ACK : Nat := 0xE1

/-- Embeds `ACK_TYPE_MAP.get(packet_type, packet_type)`: the four uplink
packet types map to their ACK codes, anything else falls back to itself. -/
def ackTypeFor (packet_type : Nat) : Nat :=
  if packet_type = PACKET_TYPE_WEATHER then PACKET_TYPE_WEATHER_ACK
  else if packet_type = PACKET_TYPE_TOWER_TILT then PACKET_TYPE_TOWER_TILT_ACK
  else if packet_type = PACKET_TYPE_LINE_TEMPERATURE then PACKET_TYPE_LINE_TEMPERATURE_ACK
  else if packet_type = PACKET_TYPE_HEARTBEAT then PACKET_TYPE_HEARTBEAT_ACK
  else packet_type

/-! ## Little-endian readers and writers

`readU16LE` / `readU32LE` embed `struct.unpack_from("<H"/"<I", data, off)`;
the parser only calls them at offsets it has bounds-checked, so an
out-of-range default of 0 never matters in guarded positions.
`u16LE` / `u32LE` embed `struct.pack`. -/

def readU16LE (data : List Nat) (off : Nat) : Nat :=
  data.getD off 0 + 256 * data.getD (off + 1) 0

def readU32LE (data : List Nat) (off : Nat) : Nat :=
  data.getD off 0 + 256 * data.getD (off + 1) 0
    + 65536 * data.getD (off + 2) 0 + 16777216 * data.getD (off + 3) 0

def u16LE (n : Nat) : List Nat := [n % 256, n / 256 % 256]

def u32LE (n : Nat) : List Nat :=
  [n % 256, n / 256 % 256, n / 65536 % 256, n / 16777216 % 256]

/-! ## CRC (`crc16_modbus`) -/

/-- One shift round of the inner `for _ in range(8)` loop of `crc16_modbus`:
if the LSB is set, shift right and XOR the polynomial `0xA001`, else just
shift right. -/
def crcBitRound (crc : Nat) : Nat :=
  if crc &&& 1 = 1 then (crc >>> 1) ^^^ 0xA001 else crc >>> 1

/-- Embeds `crc16_modbus(data)`: initial value `0xFFFF`; per byte, XOR the
byte in and run eight shift rounds; finally mask with `0xFFFF` as the
source does. -/
def crc16_modbus (data : List Nat) : Nat :=
  (data.foldl (fun crc byte => crcBitRound^[8] (crc ^^^ byte)) 0xFFFF) &&& 0xFFFF

/-! ## ASCII helpers (`_decode_ascii`) -/

/-- Embeds `raw.rstrip(b"\x00")`. -/
def rstripZeros (l : List Nat) : List Nat :=
  (l.reverse.dropWhile (fun b => b = 0)).reverse

/-- Embeds `raw.rstrip(b"\x00").decode("ascii", errors="ignore")`: strip
trailing zero bytes, then drop every byte outside the ASCII range (that is
what `errors="ignore"` does). The result stays a byte list. -/
def decode_ascii (raw : List Nat) : List Nat :=
  (rstripZeros raw).filter (fun b => b < 128)

/-! ## Parse failures

`protocol.py` defines the exception classes `I1ProtocolError` (base),
`FrameSyncError`, `CRCMismatchError` and `UnsupportedPacketTypeError`.
Each `raise` site is modelled as its own `ParseFailure` constructor
(the sites differ in message text); `ParseFailure.pyClass` records which
Python exception class that site raises. -/

/-- Python exception classes raised by the codec. -/
inductive PyErrClass where
  | protocolError          -- I1ProtocolError (the base class)
  | frameSyncError         -- FrameSyncError
  | crcMismatchError       -- CRCMismatchError
  | unsupportedPacketTypeError -- UnsupportedPacketTypeError
deriving DecidableEq, Repr

/-- Which payload parser raised a content-too-short error. -/
inductive TruncKind where
  | weather | towerTilt | lineTemperature | heartbeat | heartbeatVersion
deriving DecidableEq, Repr

/-- One constructor per `raise` site of `parse_uplink_frame` and the payload
parsers, in source order. -/
inductive ParseFailure where
  | shortFrame
  | badSync
  | lengthMismatch (actual expected : Nat)
  | badEnd
  | crcMismatch (expected actual : Nat)
  | unsupportedPacketType (packet_type : Nat)
  | payloadTruncated (which : TruncKind)
deriving DecidableEq, Repr

/-- The Python exception class each raise site uses.  Only bad-sync, CRC and
unsupported-packet-type get dedicated subclasses; the other four sites raise
the base `I1ProtocolError` with a message string. -/
def ParseFailure.pyClass : ParseFailure → PyErrClass
  | .shortFrame => .protocolError
  | .badSync => .frameSyncError
  | .lengthMismatch _ _ => .protocolError
  | .badEnd => .protocolError
  | .crcMismatch _ _ => .crcMismatchError
  | .unsupportedPacketType _ => .unsupportedPacketTypeError
  | .payloadTruncated _ => .protocolError

/-! ## Payload dataclasses

Float fields carry the raw little-endian `f32` bit pattern (see header). -/

structure WeatherPayload where
  component_id : List Nat
  time_stamp : Nat
  average_wind_speed : Nat
  average_wind_direction : ℚ
  max_wind_speed : Nat
  extreme_wind_speed : Nat
  standard_wind_speed : Nat
  air_temperature : Nat
  humidity : ℚ
  air_pressure : Nat
  precipitation : Nat
  precipitation_intensity : Nat
  radiation_intensity : ℚ
deriving DecidableEq, Repr

structure TowerTiltPayload where
  component_id : List Nat
  time_stamp : Nat
  inclination : Nat
  inclination_x : Nat
  inclination_y : Nat
  angle_x : Nat
  angle_y : Nat
deriving DecidableEq, Repr

structure LineTemperaturePayload where
  component_id : List Nat
  unit_sum : Nat
  unit_no : Nat
  time_stamp : Nat
  line_temperature : Nat
deriving DecidableEq, Repr

structure HeartbeatPayload where
  cmd_id : List Nat
  clocktime_stamp : Nat
  battery_voltage : Nat
  operation_temperature : Nat
  battery_capacity : Nat
  floating_charge : Nat
  total_working_time : Nat
  working_time : Nat
  connection_state : Nat
  send_flow : Nat
  receive_flow : Nat
  protocol_version : List Nat
deriving DecidableEq, Repr

inductive ParsedPayload where
  | weather (p : WeatherPayload)
  | towerTilt (p : TowerTiltPayload)
  | lineTemperature (p : LineTemperaturePayload)
  | heartbeat (p : HeartbeatPayload)
deriving DecidableEq, Repr

structure ParsedFrame where
  raw_frame : List Nat
  packet_length : Nat
  cmd_id : List Nat
  frame_type : Nat
  packet_type : Nat
  frame_no : Nat
  payload : ParsedPayload
deriving DecidableEq, Repr

/-! ## Payload parsers -/

/-- Embeds `_parse_weather_payload`.  Minimum content length in the source is
`17+4+4+2+4+4+4+4+2+4+4+4+2 = 59`. -/
def parseWeatherPayload (content : List Nat) : Except ParseFailure WeatherPayload :=
  if content.length < 59 then .error (.payloadTruncated .weather)
  else .ok {
    component_id := decode_ascii (content.take 17)
    time_stamp := readU32LE content 17
    average_wind_speed := readU32LE content 21
    average_wind_direction := (readU16LE content 25 : ℚ)
    max_wind_speed := readU32LE content 27
    extreme_wind_speed := readU32LE content 31
    standard_wind_speed := readU32LE content 35
    air_temperature := readU32LE content 39
    humidity := (readU16LE content 43 : ℚ) / 10
    air_pressure := readU32LE content 45
    precipitation := readU32LE content 49
    precipitation_intensity := readU32LE content 53
    radiation_intensity := (readU16LE content 57 : ℚ) }

/-- Embeds `_parse_tower_tilt_payload` (minimum length `17+6*4 = 41`). -/
def parseTowerTiltPayload (content : List Nat) : Except ParseFailure TowerTiltPayload :=
  if content.length < 41 then .error (.payloadTruncated .towerTilt)
  else .ok {
    component_id := decode_ascii (content.take 17)
    time_stamp := readU32LE content 17
    inclination := readU32LE content 21
    inclination_x := readU32LE content 25
    inclination_y := readU32LE content 29
    angle_x := readU32LE content 33
    angle_y := readU32LE content 37 }

/-- Embeds `_parse_line_temperature_payload` (minimum length `17+1+1+4+4 = 27`). -/
def parseLineTemperaturePayload (content : List Nat) :
    Except ParseFailure LineTemperaturePayload :=
  if content.length < 27 then .error (.payloadTruncated .lineTemperature)
  else .ok {
    component_id := decode_ascii (content.take 17)
    unit_sum := content.getD 17 0
    unit_no := content.getD 18 0
    time_stamp := readU32LE content 19
    line_temperature := readU32LE content 23 }

/-- Embeds `_parse_heartbeat_payload`.  The first guard sums the widths up to
`receive_flow` (34 bytes); `protocol_version` is then sliced as
`content[34:38]` and a second guard rejects the slice if it is shorter than
4 bytes (so contents of length 34..37 pass the first guard and fail here). -/
def parseHeartbeatPayload (content cmd_id : List Nat) :
    Except ParseFailure HeartbeatPayload :=
  if content.length < 34 then .error (.payloadTruncated .heartbeat)
  else if ((content.drop 34).take 4).length ≠ 4 then .error (.payloadTruncated .heartbeatVersion)
  else .ok {
      cmd_id := cmd_id
      clocktime_stamp := readU32LE content 0
      battery_voltage := readU32LE content 4
      operation_temperature := readU32LE content 8
      battery_capacity := readU32LE content 12
      floating_charge := content.getD 16 0
      total_working_time := readU32LE content 17
      working_time := readU32LE content 21
      connection_state := content.getD 25 0
      send_flow := readU32LE content 26
      receive_flow := readU32LE content 30
      protocol_version := (content.drop 34).take 4 }

/-! ## Frame parser (`parse_uplink_frame`)

The fixed on-wire overhead is `2+2+17+1+1+1+2+1 = 27` bytes (sync, length,
cmd id, frame type, packet type, frame no, CRC, end), so the short-frame
threshold is 27 and the expected total length is `27 + Packet_Length`,
exactly as the source computes them. -/

/-- The `ParsedFrame` constructed at the end of `parse_uplink_frame` from the
header bytes and the decoded payload. -/
def assembleFrame (frame : List Nat) (payload : ParsedPayload) : ParsedFrame :=
  { raw_frame := frame
    packet_length := readU16LE frame 2
    cmd_id := decode_ascii ((frame.drop 4).take 17)
    frame_type := frame.getD 21 0
    packet_type := frame.getD 22 0
    frame_no := frame.getD 23 0
    payload := payload }

def parse_uplink_frame (frame : List Nat) : Except ParseFailure ParsedFrame :=
  if frame.length < 27 then .error .shortFrame
  else if frame.take 2 ≠ SYNC_BYTES then .error .badSync
  else
    let packet_length := readU16LE frame 2
    let expected_len := 27 + packet_length
    if frame.length ≠ expected_len then .error (.lengthMismatch frame.length expected_len)
    else if frame.getD (frame.length - 1) 0 ≠ END_BYTE then .error .badEnd
    else
      let crc_expected := readU16LE frame (frame.length - 3)
      let crc_actual := crc16_modbus ((frame.drop 2).take (frame.length - 5))
      if crc_expected ≠ crc_actual then .error (.crcMismatch crc_expected crc_actual)
      else
        let cmd_id := decode_ascii ((frame.drop 4).take 17)
        let content := (frame.drop 24).take packet_length
        let packet_type := frame.getD 22 0
        let payloadE : Except ParseFailure ParsedPayload :=
          if packet_type = PACKET_TYPE_WEATHER then
            (parseWeatherPayload content).map ParsedPayload.weather
          else if packet_type = PACKET_TYPE_TOWER_TILT then
            (parseTowerTiltPayload content).map ParsedPayload.towerTilt
          else if packet_type = PACKET_TYPE_LINE_TEMPERATURE then
            (parseLineTemperaturePayload content).map ParsedPayload.lineTemperature
          else if packet_type = PACKET_TYPE_HEARTBEAT then
            (parseHeartbeatPayload content cmd_id).map ParsedPayload.heartbeat
          else .error (.unsupportedPacketType packet_type)
        payloadE.map (assembleFrame frame)

/-! ## ACK builder (`build_ack_frame`) -/

/-- Embeds `cmd_id.encode("ascii", errors="ignore")[:17].ljust(17, b"\x00")`:
non-ASCII characters are dropped, the result truncated to 17 bytes and
zero-padded on the right. -/
def encodeCmdId (cmd_id : List Nat) : List Nat :=
  let bs := (cmd_id.filter (fun b => b < 128)).take 17
  bs ++ List.replicate (17 - bs.length) 0

/-- The ACK `Content` of `build_ack_frame`: a one-byte status for the three
sensor ACKs, or status + mode + clocktime for the heartbeat ACK. -/
def ackContent (packet_type : Nat) (success : Bool) (mode clocktime_stamp : Nat) :
    List Nat :=
  if packet_type = PACKET_TYPE_HEARTBEAT then
    [if success then 0xFF else 0x00, mode &&& 0xFF] ++ u32LE clocktime_stamp
  else [if success then 0xFF else 0x00]

/-- The `header` local of `build_ack_frame`: everything before the CRC. -/
def ackHeaderBytes (cmd_id : List Nat) (packet_type frame_no : Nat)
    (success : Bool) (mode clocktime_stamp : Nat) : List Nat :=
  SYNC_BYTES ++ u16LE (ackContent packet_type success mode clocktime_stamp).length
    ++ encodeCmdId cmd_id
    ++ [FRAME_TYPE_DOWNLINK, ackTypeFor packet_type &&& 0xFF, frame_no &&& 0xFF]
    ++ ackContent packet_type success mode clocktime_stamp

/-- Embeds `build_ack_frame`: the header above, then the Modbus CRC over
everything after the sync word, then the end byte.  `clocktime_stamp`
defaults to the current time in the source; here the caller always supplies
it (time is a parameter of the embedding). -/
def build_ack_frame (cmd_id : List Nat) (packet_type frame_no : Nat)
    (success : Bool) (mode : Nat) (clocktime_stamp : Nat) : List Nat :=
  ackHeaderBytes cmd_id packet_type frame_no success mode clocktime_stamp
    ++ u16LE (crc16_modbus
        ((ackHeaderBytes cmd_id packet_type frame_no success mode clocktime_stamp).drop 2))
    ++ [END_BYTE]

/-! ## Frame extractor and handler (`server.py`) -/

/-- Embeds the sync scan of `_extract_frame`: the source loops
`for idx in range(len(buffer) - 1)` testing `buffer[idx:idx+2] == SYNC_BYTES`
and keeps the first hit.  Returns the index of the first adjacent
`5A A5` pair, if any. -/
def findSync : List Nat → Option Nat
  | a :: b :: rest =>
      if a = 0x5A ∧ b = 0xA5 then some 0
      else (findSync (b :: rest)).map (· + 1)
  | _ => none

/-- Embeds `_extract_frame(buffer)`.  Mirrors the source exactly: empty
buffer yields nothing; no sync keeps only the final byte; after dropping the
pre-sync prefix it needs 4 bytes to read `Packet_Length`; a declared length
of 0 or an expected size over 4096 skips 2 bytes past the sync and yields no
frame (ending the caller's extraction round); an incomplete frame waits; a
complete frame of `27 + Packet_Length` bytes is sliced out. -/
def extract_frame (buffer : List Nat) : Option (List Nat) × List Nat :=
  if buffer = [] then (none, buffer)
  else
    match findSync buffer with
    | none => (none, buffer.drop (buffer.length - 1))
    | some idx =>
      let buf := buffer.drop idx
      if buf.length < 4 then (none, buf)
      else
        let packet_length := readU16LE buf 2
        let expected_len := 27 + packet_length
        if packet_length = 0 ∨ expected_len > 4096 then (none, buf.drop 2)
        else if buf.length < expected_len then (none, buf)
        else (some (buf.take expected_len), buf.drop expected_len)

/-- Embeds the handler's inner `while True` loop over `_extract_frame`
(`I1RequestHandler.handle`): keep extracting until no frame is produced,
collecting the extracted frames in order and returning the final buffer.
`fuel` bounds the iteration count; every productive step strictly shrinks
the buffer, so `length + 1` fuel is always enough. -/
def extractLoopFuel : Nat → List Nat → List (List Nat) × List Nat
  | 0, buf => ([], buf)
  | fuel + 1, buf =>
    match extract_frame buf with
    | (none, remaining) => ([], remaining)
    | (some f, remaining) =>
      let (fs, r) := extractLoopFuel fuel remaining
      (f :: fs, r)

/-- One handler round of frame extraction on a received buffer. -/
def runExtractLoop (buffer : List Nat) : List (List Nat) × List Nat :=
  extractLoopFuel (buffer.length + 1) buffer

/-- Embeds `_safe_peek_header(frame)`: `None` below the 24-byte fixed header,
otherwise the decoded `Cmd_Id`, the `Packet_Type` byte and the `Frame_No`
byte. -/
def safe_peek_header (frame : List Nat) : Option (List Nat × Nat × Nat) :=
  if frame.length < 24 then none
  else some (decode_ascii ((frame.drop 4).take 17), frame.getD 22 0, frame.getD 23 0)

/-- Embeds the ACK decision of `I1RequestHandler._handle_frame`: decode the
frame; on success build a success ACK from the parsed header, on a protocol
error build a failure ACK from the peeked header, and only when the header
cannot be peeked drop silently (`none`).  `now` stands for the wall clock
used for heartbeat ACKs. -/
def handleFrameAck (now : Nat) (frame : List Nat) : Option (List Nat) :=
  match parse_uplink_frame frame with
  | .ok parsed =>
      some (build_ack_frame parsed.cmd_id parsed.packet_type parsed.frame_no true 0 now)
  | .error _ =>
      match safe_peek_header frame with
      | some (cmd_id, packet_type, frame_no) =>
          some (build_ack_frame cmd_id packet_type frame_no false 0 now)
      | none => none

/-! ## Telemetry store (`store.py`)

The store consumes decoded payloads.  Numeric fields on which the store
computes (threshold comparison, `round(x, 2)`) are modelled in `ℚ`;
timestamps are `Int` (Python subtracts and compares them as numbers).
`_format_timestamp` renders the epoch through `datetime`/`zoneinfo`; the
record here keeps the epoch itself, from which that string is derived
deterministically, so record identity and every verified property are
unaffected. -/

/-- Store-level weather payload (fields of `WeatherPayload` as the store
reads them). -/
structure WeatherPayloadQ where
  component_id : List Nat
  time_stamp : Int
  average_wind_speed : ℚ
  average_wind_direction : ℚ
  max_wind_speed : ℚ
  extreme_wind_speed : ℚ
  standard_wind_speed : ℚ
  air_temperature : ℚ
  humidity : ℚ
  air_pressure : ℚ
  precipitation : ℚ
  precipitation_intensity : ℚ
  radiation_intensity : ℚ
deriving DecidableEq, Repr

/-- Store-level tower-tilt payload. -/
structure TowerTiltPayloadQ where
  component_id : List Nat
  time_stamp : Int
  inclination : ℚ
  inclination_x : ℚ
  inclination_y : ℚ
  angle_x : ℚ
  angle_y : ℚ
deriving DecidableEq, Repr

/-- Store-level line-temperature payload. -/
structure LineTempPayloadQ where
  component_id : List Nat
  unit_sum : Nat
  unit_no : Nat
  time_stamp : Int
  line_temperature : ℚ
deriving DecidableEq, Repr

/-- Store-level heartbeat payload (the store only caches it whole). -/
structure HeartbeatPayloadQ where
  cmd_id : List Nat
  clocktime_stamp : Int
deriving DecidableEq, Repr

/-- Models Python's `round(x, 2)` on the rational model of a float. -/
def round2 (q : ℚ) : ℚ := (round (q * 100) : ℚ) / 100

/-- Embeds `StoredRecord`.  `time_stamp` stands in for `timestamp_str`
(see section header); `raw_payload` is the verbatim payload as in the
source. -/
structure StoredRecord where
  time_stamp : Int
  sway_speed_dps : ℚ
  temperature_c : ℚ
  humidity_rh : ℚ
  pressure_hpa : ℚ
  lux : ℚ
  wire_foreign_object : Nat
  component_id : List Nat
  frame_no : Nat
  wind_speed_avg_10min : ℚ
  wind_direction_deg : ℚ
  wind_speed_max : ℚ
  wind_speed_extreme : ℚ
  precipitation_mm : ℚ
  precipitation_intensity_mm_min : ℚ
  raw_payload : WeatherPayloadQ
deriving DecidableEq, Repr

/-- Association-list lookup standing in for Python `dict.get`. -/
def alistGet (l : List (List Nat × Int × Bool)) (k : List Nat) : Option (Int × Bool) :=
  (l.find? (fun e => e.1 = k)).map (fun e => e.2)

/-- Association-list update standing in for Python `dict[k] = v`. -/
def alistSet (l : List (List Nat × Int × Bool)) (k : List Nat) (v : Int × Bool) :
    List (List Nat × Int × Bool) :=
  (k, v) :: l.filter (fun e => e.1 ≠ k)

/-- Embeds the state of `I1DataStore`: ring, alert table, latest caches,
update counter and read cursor, plus the three configuration knobs. -/
structure I1DataStore where
  maxRecords : Nat
  lineTempAlertThreshold : ℚ
  lineTempAlertTimeout : Int
  weatherRecords : List StoredRecord
  lineTempAlerts : List (List Nat × Int × Bool)
  latestTowerTilt : List (List Nat × TowerTiltPayloadQ)
  latestHeartbeat : Option HeartbeatPayloadQ
  updateCounter : Nat
  lastUpdateCounterChecked : Nat
deriving DecidableEq, Repr

/-- Embeds `I1DataStore.__init__`: `max_records` and the alert timeout are
clamped to at least 1; the ring and caches start empty, both counters at 0. -/
def I1DataStore.init (max_records : Nat) (line_temp_alert_threshold : ℚ)
    (line_temp_alert_timeout : Int) : I1DataStore :=
  { maxRecords := max 1 max_records
    lineTempAlertThreshold := line_temp_alert_threshold
    lineTempAlertTimeout := max 1 line_temp_alert_timeout
    weatherRecords := []
    lineTempAlerts := []
    latestTowerTilt := []
    latestHeartbeat := none
    updateCounter := 0
    lastUpdateCounterChecked := 0 }

/-- Embeds `deque(maxlen=max).append(x)`: push to the tail and, when the
bound is exceeded, drop from the head. -/
def pushRing (maxLen : Nat) (l : List StoredRecord) (x : StoredRecord) : List StoredRecord :=
  let grown := l ++ [x]
  if maxLen < grown.length then grown.drop (grown.length - maxLen) else grown

/-- Embeds `I1DataStore._get_wire_flag(component_id, ts)`. -/
def I1DataStore.getWireFlag (s : I1DataStore) (component_id : List Nat) (ts : Int) : Nat :=
  match alistGet s.lineTempAlerts component_id with
  | none => 0
  | some (alert_ts, is_alert) =>
    if is_alert = false then 0
    else if s.lineTempAlertTimeout < ts - alert_ts then 0
    else 1

/-- The record `I1DataStore.add_weather` constructs from a payload, a frame
number and the store state at insertion time. -/
def I1DataStore.recordOf (s : I1DataStore) (payload : WeatherPayloadQ) (frame_no : Nat) :
    StoredRecord :=
  { time_stamp := payload.time_stamp
    sway_speed_dps := round2 payload.standard_wind_speed
    temperature_c := round2 payload.air_temperature
    humidity_rh := round2 payload.humidity
    pressure_hpa := round2 payload.air_pressure
    lux := round2 payload.radiation_intensity
    wire_foreign_object := s.getWireFlag payload.component_id payload.time_stamp
    component_id := payload.component_id
    frame_no := frame_no
    wind_speed_avg_10min := round2 payload.average_wind_speed
    wind_direction_deg := payload.average_wind_direction
    wind_speed_max := round2 payload.max_wind_speed
    wind_speed_extreme := round2 payload.extreme_wind_speed
    precipitation_mm := round2 payload.precipitation
    precipitation_intensity_mm_min := round2 payload.precipitation_intensity
    raw_payload := payload }

/-- Embeds `I1DataStore.add_weather`: build the record (fusing the
foreign-object flag from the current alert table), append it to the bounded
ring and bump the update counter.  Returns the stored record with the new
state. -/
def I1DataStore.add_weather (s : I1DataStore) (payload : WeatherPayloadQ) (frame_no : Nat) :
    StoredRecord × I1DataStore :=
  let record := s.recordOf payload frame_no
  (record,
   { s with
      weatherRecords := pushRing s.maxRecords s.weatherRecords record
      updateCounter := s.updateCounter + 1 })

/-- Embeds `I1DataStore.add_line_temperature`: store
`(time_stamp, line_temperature >= threshold)` for the component and bump the
update counter. -/
def I1DataStore.add_line_temperature (s : I1DataStore) (payload : LineTempPayloadQ) :
    I1DataStore :=
  let is_alert := decide (s.lineTempAlertThreshold ≤ payload.line_temperature)
  { s with
      lineTempAlerts := alistSet s.lineTempAlerts payload.component_id
        (payload.time_stamp, is_alert)
      updateCounter := s.updateCounter + 1 }

/-- Embeds `I1DataStore.add_tower_tilt`. -/
def I1DataStore.add_tower_tilt (s : I1DataStore) (payload : TowerTiltPayloadQ) :
    I1DataStore :=
  { s with
      latestTowerTilt := (payload.component_id, payload) ::
        s.latestTowerTilt.filter (fun e => e.1 ≠ payload.component_id)
      updateCounter := s.updateCounter + 1 }

/-- Embeds `I1DataStore.add_heartbeat`. -/
def I1DataStore.add_heartbeat (s : I1DataStore) (payload : HeartbeatPayloadQ) :
    I1DataStore :=
  { s with latestHeartbeat := some payload, updateCounter := s.updateCounter + 1 }

/-- Embeds `I1DataStore.get_all_weather` (a snapshot of the ring in order;
the dict projection of each record is omitted as presentation). -/
def I1DataStore.get_all_weather (s : I1DataStore) : List StoredRecord :=
  s.weatherRecords

/-- Embeds `I1DataStore.get_weather_count`. -/
def I1DataStore.get_weather_count (s : I1DataStore) : Nat :=
  s.weatherRecords.length

/-- Embeds `I1DataStore.is_data_updated`: report whether the update counter
moved since the last check and advance the cursor when it did. -/
def I1DataStore.is_data_updated (s : I1DataStore) : Bool × I1DataStore :=
  if s.updateCounter ≠ s.lastUpdateCounterChecked then
    (true, { s with lastUpdateCounterChecked := s.updateCounter })
  else (false, s)

/-! ## Reference CRC (spec side, for the refinement claim)

Follows the spec's words: "Modbus CRC16, polynomial `0xA001`, initial
`0xFFFF`, LSB-first, no final XOR, no byte reversal" — the register
processes the message one bit at a time, least-significant bit of each byte
first, with no final transformation. -/

/-- One bit of the reference computation: XOR the message bit into the
register's LSB position; if that LSB is set, shift right and XOR the
polynomial, else shift right. -/
def crcRefStep (crc bit : Nat) : Nat :=
  if (crc ^^^ bit) &&& 1 = 1 then (crc >>> 1) ^^^ 0xA001 else crc >>> 1

/-- Feed the `k` low bits of `b` into the reference register, LSB first. -/
def crcRefBits (crc b : Nat) : Nat → Nat
  | 0 => crc
  | k + 1 => crcRefBits (crcRefStep crc (b &&& 1)) (b >>> 1) k

/-- One byte of the reference computation: its 8 bits, LSB first. -/
def crcRefByte (crc b : Nat) : Nat := crcRefBits crc b 8

/-- Reference Modbus CRC16 per the spec's description: initial `0xFFFF`,
bytes in order, no final XOR, no byte reversal. -/
def crc16_reference (data : List Nat) : Nat := data.foldl crcRefByte 0xFFFF

/-! ## Store operation sequences (spec side, for the cursor claim)

`StoreOp` is a write to the store or an `is_data_updated()` poll;
`runStoreOps` executes a sequence against the embedded store, collecting the
poll results.  `cursorSpec` is modelled from the spec's words: a poll
returns true exactly when at least one write happened since the previous
poll. -/

inductive StoreOp where
  | weather (p : WeatherPayloadQ) (frame_no : Nat)
  | lineTemp (p : LineTempPayloadQ)
  | towerTilt (p : TowerTiltPayloadQ)
  | heartbeat (p : HeartbeatPayloadQ)
  | poll

/-- Execute one operation. Polls return their boolean. -/
def applyStoreOp (s : I1DataStore) : StoreOp → I1DataStore × Option Bool
  | .weather p fn => ((s.add_weather p fn).2, none)
  | .lineTemp p => (s.add_line_temperature p, none)
  | .towerTilt p => (s.add_tower_tilt p, none)
  | .heartbeat p => (s.add_heartbeat p, none)
  | .poll => let r := s.is_data_updated; (r.2, some r.1)

/-- Execute a sequence of operations, collecting poll results in order. -/
def runStoreOps (s : I1DataStore) : List StoreOp → List Bool
  | [] => []
  | op :: rest =>
    match applyStoreOp s op with
    | (s', some b) => b :: runStoreOps s' rest
    | (s', none) => runStoreOps s' rest

/-- Modelled from the spec: a poll answers true iff at least one write
occurred since the previous poll (`dirty` carries "a write happened and no
poll has consumed it yet"; it starts false on a fresh store). -/
def cursorSpecAux (dirty : Bool) : List StoreOp → List Bool
  | [] => []
  | .poll :: rest => dirty :: cursorSpecAux false rest
  | _ :: rest => cursorSpecAux true rest

/-- Expected poll answers over a whole operation sequence on a fresh store. -/
def cursorSpec (ops : List StoreOp) : List Bool := cursorSpecAux false ops

/-! ## CRC lemmas: the source loop agrees with the reference bit-serial CRC -/

/-- Absorbing one message byte up front and shifting (the source's loop
shape) equals one reference bit step followed by absorbing the remaining
bits one position lower. -/
theorem crcBitRound_xor (c b : Nat) :
    crcBitRound (c ^^^ b) = crcRefStep c (b &&& 1) ^^^ (b >>> 1) := by
  unfold crcBitRound crcRefStep
  have hcond : ((c ^^^ b) &&& 1 = 1) ↔ ((c ^^^ (b &&& 1)) &&& 1 = 1) := by
    simp only [Nat.and_one_is_mod, Nat.xor_mod_two_eq_one]
    omega
  have hdiv : (c ^^^ b) >>> 1 = (c >>> 1) ^^^ (b >>> 1) := by
    simpa [Nat.shiftRight_succ, Nat.shiftRight_zero] using Nat.xor_div_two
  by_cases h : (c ^^^ b) &&& 1 = 1
  · rw [if_pos h, if_pos (hcond.mp h), hdiv]
    rw [Nat.xor_assoc, Nat.xor_assoc, Nat.xor_comm (b >>> 1) 0xA001]
  · rw [if_neg h, if_neg (fun hq => h (hcond.mpr hq)), hdiv]

/-- Iterating the source's shift round on `c ^^^ b` tracks the reference
register with the unconsumed high bits of `b` still XOR-ed on top. -/
theorem iterate_crcBitRound_xor (k : Nat) : ∀ c b : Nat,
    crcBitRound^[k] (c ^^^ b) = crcRefBits c b k ^^^ (b >>> k) := by
  induction k with
  | zero => intro c b; simp [crcRefBits]
  | succ k ih =>
    intro c b
    rw [Function.iterate_succ_apply, crcBitRound_xor, ih]
    show crcRefBits (crcRefStep c (b &&& 1)) (b >>> 1) k ^^^ (b >>> 1) >>> k
      = crcRefBits c b (k+1) ^^^ b >>> (k+1)
    rw [← Nat.shiftRight_add, Nat.add_comm 1 k]
    rfl

/-- For a genuine byte the 8 source rounds equal one reference byte. -/
theorem crcByte_eq (c b : Nat) (hb : b < 256) :
    crcBitRound^[8] (c ^^^ b) = crcRefByte c b := by
  rw [iterate_crcBitRound_xor]
  have : b >>> 8 = 0 := by
    rw [Nat.shiftRight_eq_div_pow]
    exact Nat.div_eq_of_lt hb
  rw [this, Nat.xor_zero]
  rfl

/-- The two byte-level folds agree on byte strings. -/
theorem crcFold_eq (data : List Nat) : ∀ c : Nat, (∀ b ∈ data, b < 256) →
    data.foldl (fun crc byte => crcBitRound^[8] (crc ^^^ byte)) c
      = data.foldl crcRefByte c := by
  induction data with
  | nil => intro c _; rfl
  | cons x xs ih =>
    intro c hb
    simp only [List.foldl_cons]
    rw [crcByte_eq c x (hb x (by simp))]
    exact ih (crcRefByte c x) (fun b h => hb b (by simp [h]))

/-- The reference register never leaves 16 bits. -/
theorem crcRefStep_lt (c bit : Nat) (hc : c < 65536) : crcRefStep c bit < 65536 := by
  unfold crcRefStep
  have h1 : c >>> 1 < 65536 :=
    Nat.lt_of_le_of_lt (by rw [Nat.shiftRight_eq_div_pow]; exact Nat.div_le_self c 2) hc
  split
  · have h16 : (65536 : Nat) = 2 ^ 16 := by norm_num
    rw [h16] at h1 ⊢
    exact Nat.xor_lt_two_pow h1 (by norm_num)
  · exact h1

theorem crcRefBits_lt (k : Nat) : ∀ c b : Nat, c < 65536 → crcRefBits c b k < 65536 := by
  induction k with
  | zero => intro c b hc; exact hc
  | succ k ih => intro c b hc; exact ih _ _ (crcRefStep_lt c (b &&& 1) hc)

theorem crcRefFold_lt (data : List Nat) : ∀ c : Nat, c < 65536 →
    data.foldl crcRefByte c < 65536 := by
  induction data with
  | nil => intro c hc; exact hc
  | cons x xs ih => intro c hc; exact ih _ (crcRefBits_lt 8 c x hc)

/-- The source `crc16_modbus` computes the reference Modbus CRC16 on every
byte string (the final `& 0xFFFF` of the source is the identity there). -/
theorem crc16_modbus_eq_reference (data : List Nat) (hb : ∀ b ∈ data, b < 256) :
    crc16_modbus data = crc16_reference data := by
  unfold crc16_modbus crc16_reference
  rw [crcFold_eq data 0xFFFF hb]
  have hlt : data.foldl crcRefByte 0xFFFF < 65536 :=
    crcRefFold_lt data 0xFFFF (by norm_num)
  have h16 : (65536 : Nat) = 2 ^ 16 := by norm_num
  calc data.foldl crcRefByte 0xFFFF &&& 0xFFFF
      = data.foldl crcRefByte 0xFFFF &&& (2 ^ 16 - 1) := by norm_num
    _ = data.foldl crcRefByte 0xFFFF :=
        Nat.and_pow_two_sub_one_of_lt_two_pow (h16 ▸ hlt)

/-- C3 (confirmed). `crc16_modbus` is Modbus CRC16 with polynomial `0xA001`,
initial value `0xFFFF`, LSB-first, no final XOR and no byte reversal, over
an arbitrary byte slice: it returns `0xFFFF` on the empty string, `0x807E`
on `[0x01]`, `0x2BA1` on `[0x01,0x02,0x03,0x04]`, and on every byte string
of at most 256 bytes it equals the bit-serial reference definition
`crc16_reference`. -/
theorem claim_C3_crc16_reference :
    crc16_modbus [] = 0xFFFF ∧
    crc16_modbus [0x01] = 0x807E ∧
    crc16_modbus [0x01, 0x02, 0x03, 0x04] = 0x2BA1 ∧
    (∀ data : List Nat, data.length ≤ 256 → (∀ b ∈ data, b < 256) →
      crc16_modbus data = crc16_reference data) := by
  refine ⟨by decide, by decide, by decide, fun data _ hb => ?_⟩
  exact crc16_modbus_eq_reference data hb

/-- Witness for C3 at a concrete byte string. -/
theorem claim_C3_witness :
    ([0x12, 0x34] : List Nat).length ≤ 256 ∧
    (∀ b ∈ ([0x12, 0x34] : List Nat), b < 256) ∧
    crc16_modbus [0x12, 0x34] = crc16_reference [0x12, 0x34] :=
  ⟨by decide, by decide,
    claim_C3_crc16_reference.2.2.2 [0x12, 0x34] (by decide) (by decide)⟩

theorem parseWeatherPayload_shape (c : List Nat) :
    parseWeatherPayload c = .error (.payloadTruncated .weather) ∨
    ∃ p, parseWeatherPayload c = .ok p := by
  unfold parseWeatherPayload
  split
  · exact Or.inl rfl
  · exact Or.inr ⟨_, rfl⟩

theorem parseTowerTiltPayload_shape (c : List Nat) :
    parseTowerTiltPayload c = .error (.payloadTruncated .towerTilt) ∨
    ∃ p, parseTowerTiltPayload c = .ok p := by
  unfold parseTowerTiltPayload
  split
  · exact Or.inl rfl
  · exact Or.inr ⟨_, rfl⟩

theorem parseLineTemperaturePayload_shape (c : List Nat) :
    parseLineTemperaturePayload c = .error (.payloadTruncated .lineTemperature) ∨
    ∃ p, parseLineTemperaturePayload c = .ok p := by
  unfold parseLineTemperaturePayload
  split
  · exact Or.inl rfl
  · exact Or.inr ⟨_, rfl⟩

theorem parseHeartbeatPayload_shape (c cmd : List Nat) :
    parseHeartbeatPayload c cmd = .error (.payloadTruncated .heartbeat) ∨
    parseHeartbeatPayload c cmd = .error (.payloadTruncated .heartbeatVersion) ∨
    ∃ p, parseHeartbeatPayload c cmd = .ok p := by
  unfold parseHeartbeatPayload
  split
  · exact Or.inl rfl
  split
  · exact Or.inr (Or.inl rfl)
  · exact Or.inr (Or.inr ⟨_, rfl⟩)

theorem parse_eq_of_short (f : List Nat) (h : f.length < 27) :
    parse_uplink_frame f = .error .shortFrame := by
  unfold parse_uplink_frame
  rw [if_pos h]

theorem parse_eq_of_badSync (f : List Nat) (h1 : ¬ f.length < 27)
    (h2 : f.take 2 ≠ SYNC_BYTES) :
    parse_uplink_frame f = .error .badSync := by
  unfold parse_uplink_frame
  rw [if_neg h1, if_pos h2]

theorem parse_eq_of_lengthMismatch (f : List Nat) (h1 : ¬ f.length < 27)
    (h2 : f.take 2 = SYNC_BYTES) (h3 : f.length ≠ 27 + readU16LE f 2) :
    parse_uplink_frame f = .error (.lengthMismatch f.length (27 + readU16LE f 2)) := by
  unfold parse_uplink_frame
  rw [if_neg h1, if_neg (not_not_intro h2)]
  rw [if_pos h3]

theorem parse_eq_of_badEnd (f : List Nat) (h1 : ¬ f.length < 27)
    (h2 : f.take 2 = SYNC_BYTES) (h3 : f.length = 27 + readU16LE f 2)
    (h4 : f.getD (f.length - 1) 0 ≠ END_BYTE) :
    parse_uplink_frame f = .error .badEnd := by
  unfold parse_uplink_frame
  rw [if_neg h1, if_neg (not_not_intro h2)]
  rw [if_neg (not_not_intro h3), if_pos h4]

theorem parse_eq_of_crcMismatch (f : List Nat) (h1 : ¬ f.length < 27)
    (h2 : f.take 2 = SYNC_BYTES) (h3 : f.length = 27 + readU16LE f 2)
    (h4 : f.getD (f.length - 1) 0 = END_BYTE)
    (h5 : readU16LE f (f.length - 3) ≠ crc16_modbus ((f.drop 2).take (f.length - 5))) :
    parse_uplink_frame f = .error (.crcMismatch (readU16LE f (f.length - 3))
      (crc16_modbus ((f.drop 2).take (f.length - 5)))) := by
  unfold parse_uplink_frame
  rw [if_neg h1, if_neg (not_not_intro h2)]
  rw [if_neg (not_not_intro h3), if_neg (not_not_intro h4)]
  rw [if_pos h5]

theorem parse_eq_of_unsupported (f : List Nat) (h1 : ¬ f.length < 27)
    (h2 : f.take 2 = SYNC_BYTES) (h3 : f.length = 27 + readU16LE f 2)
    (h4 : f.getD (f.length - 1) 0 = END_BYTE)
    (h5 : readU16LE f (f.length - 3) = crc16_modbus ((f.drop 2).take (f.length - 5)))
    (h6 : f.getD 22 0 ≠ PACKET_TYPE_WEATHER) (h7 : f.getD 22 0 ≠ PACKET_TYPE_TOWER_TILT)
    (h8 : f.getD 22 0 ≠ PACKET_TYPE_LINE_TEMPERATURE)
    (h9 : f.getD 22 0 ≠ PACKET_TYPE_HEARTBEAT) :
    parse_uplink_frame f = .error (.unsupportedPacketType (f.getD 22 0)) := by
  unfold parse_uplink_frame
  rw [if_neg h1, if_neg (not_not_intro h2)]
  rw [if_neg (not_not_intro h3), if_neg (not_not_intro h4)]
  rw [if_neg (not_not_intro h5)]
  simp only [if_neg h6, if_neg h7, if_neg h8, if_neg h9]
  rfl

theorem parse_eq_of_weather (f : List Nat) (h1 : ¬ f.length < 27)
    (h2 : f.take 2 = SYNC_BYTES) (h3 : f.length = 27 + readU16LE f 2)
    (h4 : f.getD (f.length - 1) 0 = END_BYTE)
    (h5 : readU16LE f (f.length - 3) = crc16_modbus ((f.drop 2).take (f.length - 5)))
    (h6 : f.getD 22 0 = PACKET_TYPE_WEATHER) :
    parse_uplink_frame f = Except.map (assembleFrame f)
      (Except.map ParsedPayload.weather
        (parseWeatherPayload ((f.drop 24).take (readU16LE f 2)))) := by
  unfold parse_uplink_frame
  rw [if_neg h1, if_neg (not_not_intro h2)]
  rw [if_neg (not_not_intro h3), if_neg (not_not_intro h4)]
  rw [if_neg (not_not_intro h5)]
  simp only [if_pos h6]

theorem parse_eq_of_towerTilt (f : List Nat) (h1 : ¬ f.length < 27)
    (h2 : f.take 2 = SYNC_BYTES) (h3 : f.length = 27 + readU16LE f 2)
    (h4 : f.getD (f.length - 1) 0 = END_BYTE)
    (h5 : readU16LE f (f.length - 3) = crc16_modbus ((f.drop 2).take (f.length - 5)))
    (h6 : f.getD 22 0 ≠ PACKET_TYPE_WEATHER) (h7 : f.getD 22 0 = PACKET_TYPE_TOWER_TILT) :
    parse_uplink_frame f = Except.map (assembleFrame f)
      (Except.map ParsedPayload.towerTilt
        (parseTowerTiltPayload ((f.drop 24).take (readU16LE f 2)))) := by
  unfold parse_uplink_frame
  rw [if_neg h1, if_neg (not_not_intro h2)]
  rw [if_neg (not_not_intro h3), if_neg (not_not_intro h4)]
  rw [if_neg (not_not_intro h5)]
  simp only [if_neg h6, if_pos h7]

theorem parse_eq_of_lineTemp (f : List Nat) (h1 : ¬ f.length < 27)
    (h2 : f.take 2 = SYNC_BYTES) (h3 : f.length = 27 + readU16LE f 2)
    (h4 : f.getD (f.length - 1) 0 = END_BYTE)
    (h5 : readU16LE f (f.length - 3) = crc16_modbus ((f.drop 2).take (f.length - 5)))
    (h6 : f.getD 22 0 ≠ PACKET_TYPE_WEATHER) (h7 : f.getD 22 0 ≠ PACKET_TYPE_TOWER_TILT)
    (h8 : f.getD 22 0 = PACKET_TYPE_LINE_TEMPERATURE) :
    parse_uplink_frame f = Except.map (assembleFrame f)
      (Except.map ParsedPayload.lineTemperature
        (parseLineTemperaturePayload ((f.drop 24).take (readU16LE f 2)))) := by
  unfold parse_uplink_frame
  rw [if_neg h1, if_neg (not_not_intro h2)]
  rw [if_neg (not_not_intro h3), if_neg (not_not_intro h4)]
  rw [if_neg (not_not_intro h5)]
  simp only [if_neg h6, if_neg h7, if_pos h8]

theorem parse_eq_of_heartbeat (f : List Nat) (h1 : ¬ f.length < 27)
    (h2 : f.take 2 = SYNC_BYTES) (h3 : f.length = 27 + readU16LE f 2)
    (h4 : f.getD (f.length - 1) 0 = END_BYTE)
    (h5 : readU16LE f (f.length - 3) = crc16_modbus ((f.drop 2).take (f.length - 5)))
    (h6 : f.getD 22 0 ≠ PACKET_TYPE_WEATHER) (h7 : f.getD 22 0 ≠ PACKET_TYPE_TOWER_TILT)
    (h8 : f.getD 22 0 ≠ PACKET_TYPE_LINE_TEMPERATURE) (h9 : f.getD 22 0 = PACKET_TYPE_HEARTBEAT) :
    parse_uplink_frame f = Except.map (assembleFrame f)
      (Except.map ParsedPayload.heartbeat
        (parseHeartbeatPayload ((f.drop 24).take (readU16LE f 2))
          (decode_ascii ((f.drop 4).take 17)))) := by
  unfold parse_uplink_frame
  rw [if_neg h1, if_neg (not_not_intro h2)]
  rw [if_neg (not_not_intro h3), if_neg (not_not_intro h4)]
  rw [if_neg (not_not_intro h5)]
  simp only [if_neg h6, if_neg h7, if_neg h8, if_pos h9]

/-- Exhaustive case analysis of the possible parser results. -/
theorem parse_shape (f : List Nat) :
    (f.length < 27 ∧ parse_uplink_frame f = .error .shortFrame) ∨
    (¬ f.length < 27 ∧ f.take 2 ≠ SYNC_BYTES ∧ parse_uplink_frame f = .error .badSync) ∨
    (¬ f.length < 27 ∧ f.take 2 = SYNC_BYTES ∧ f.length ≠ 27 + readU16LE f 2 ∧
      parse_uplink_frame f = .error (.lengthMismatch f.length (27 + readU16LE f 2))) ∨
    (parse_uplink_frame f = .error .badEnd) ∨
    (∃ a b, parse_uplink_frame f = .error (.crcMismatch a b)) ∨
    (∃ pt, parse_uplink_frame f = .error (.unsupportedPacketType pt)) ∨
    (∃ k, parse_uplink_frame f = .error (.payloadTruncated k)) ∨
    (∃ pf, parse_uplink_frame f = .ok pf ∧ pf.packet_length = readU16LE f 2 ∧
      f.length = 27 + pf.packet_length) := by
  by_cases h1 : f.length < 27
  · exact Or.inl ⟨h1, parse_eq_of_short f h1⟩
  by_cases h2 : f.take 2 = SYNC_BYTES
  case neg => exact Or.inr (Or.inl ⟨h1, h2, parse_eq_of_badSync f h1 h2⟩)
  by_cases h3 : f.length = 27 + readU16LE f 2
  case neg =>
    exact Or.inr (Or.inr (Or.inl ⟨h1, h2, h3, parse_eq_of_lengthMismatch f h1 h2 h3⟩))
  by_cases h4 : f.getD (f.length - 1) 0 = END_BYTE
  case neg => exact Or.inr (Or.inr (Or.inr (Or.inl (parse_eq_of_badEnd f h1 h2 h3 h4))))
  by_cases h5 : readU16LE f (f.length - 3) = crc16_modbus ((f.drop 2).take (f.length - 5))
  case neg =>
    exact Or.inr (Or.inr (Or.inr (Or.inr (Or.inl
      ⟨_, _, parse_eq_of_crcMismatch f h1 h2 h3 h4 h5⟩))))
  by_cases h6 : f.getD 22 0 = PACKET_TYPE_WEATHER
  · rcases parseWeatherPayload_shape ((f.drop 24).take (readU16LE f 2)) with he | ⟨p, hp⟩
    · refine Or.inr (Or.inr (Or.inr (Or.inr (Or.inr (Or.inr (Or.inl ⟨.weather, ?_⟩))))))
      rw [parse_eq_of_weather f h1 h2 h3 h4 h5 h6, he]; rfl
    · refine Or.inr (Or.inr (Or.inr (Or.inr (Or.inr (Or.inr (Or.inr
        ⟨assembleFrame f (ParsedPayload.weather p), ?_, rfl, h3⟩))))))
      rw [parse_eq_of_weather f h1 h2 h3 h4 h5 h6, hp]; rfl
  by_cases h7 : f.getD 22 0 = PACKET_TYPE_TOWER_TILT
  · rcases parseTowerTiltPayload_shape ((f.drop 24).take (readU16LE f 2)) with he | ⟨p, hp⟩
    · refine Or.inr (Or.inr (Or.inr (Or.inr (Or.inr (Or.inr (Or.inl ⟨.towerTilt, ?_⟩))))))
      rw [parse_eq_of_towerTilt f h1 h2 h3 h4 h5 h6 h7, he]; rfl
    · refine Or.inr (Or.inr (Or.inr (Or.inr (Or.inr (Or.inr (Or.inr
        ⟨assembleFrame f (ParsedPayload.towerTilt p), ?_, rfl, h3⟩))))))
      rw [parse_eq_of_towerTilt f h1 h2 h3 h4 h5 h6 h7, hp]; rfl
  by_cases h8 : f.getD 22 0 = PACKET_TYPE_LINE_TEMPERATURE
  · rcases parseLineTemperaturePayload_shape ((f.drop 24).take (readU16LE f 2)) with he | ⟨p, hp⟩
    · refine Or.inr (Or.inr (Or.inr (Or.inr (Or.inr (Or.inr (Or.inl ⟨.lineTemperature, ?_⟩))))))
      rw [parse_eq_of_lineTemp f h1 h2 h3 h4 h5 h6 h7 h8, he]; rfl
    · refine Or.inr (Or.inr (Or.inr (Or.inr (Or.inr (Or.inr (Or.inr
        ⟨assembleFrame f (ParsedPayload.lineTemperature p), ?_, rfl, h3⟩))))))
      rw [parse_eq_of_lineTemp f h1 h2 h3 h4 h5 h6 h7 h8, hp]; rfl
  by_cases h9 : f.getD 22 0 = PACKET_TYPE_HEARTBEAT
  · rcases parseHeartbeatPayload_shape ((f.drop 24).take (readU16LE f 2))
        (decode_ascii ((f.drop 4).take 17)) with he | he | ⟨p, hp⟩
    · refine Or.inr (Or.inr (Or.inr (Or.inr (Or.inr (Or.inr (Or.inl ⟨.heartbeat, ?_⟩))))))
      rw [parse_eq_of_heartbeat f h1 h2 h3 h4 h5 h6 h7 h8 h9, he]; rfl
    · refine Or.inr (Or.inr (Or.inr (Or.inr (Or.inr (Or.inr (Or.inl ⟨.heartbeatVersion, ?_⟩))))))
      rw [parse_eq_of_heartbeat f h1 h2 h3 h4 h5 h6 h7 h8 h9, he]; rfl
    · refine Or.inr (Or.inr (Or.inr (Or.inr (Or.inr (Or.inr (Or.inr
        ⟨assembleFrame f (ParsedPayload.heartbeat p), ?_, rfl, h3⟩))))))
      rw [parse_eq_of_heartbeat f h1 h2 h3 h4 h5 h6 h7 h8 h9, hp]; rfl
  · exact Or.inr (Or.inr (Or.inr (Or.inr (Or.inr (Or.inl
      ⟨_, parse_eq_of_unsupported f h1 h2 h3 h4 h5 h6 h7 h8 h9⟩)))))


/-- Result discriminator: did the parser reject the frame as too short? -/
def parseIsShortFrame : Except ParseFailure ParsedFrame → Bool
  | .error .shortFrame => true
  | _ => false

/-- Result discriminator: did the parser reject the frame for a declared
length that does not match the actual length? -/
def parseIsLengthMismatch : Except ParseFailure ParsedFrame → Bool
  | .error (.lengthMismatch _ _) => true
  | _ => false

/-- C1 (counterexample). The claim says frames are rejected as ShortFrame
exactly when their length is below 26; but a frame of exactly 26 bytes (not
below 26) is rejected at the short-frame site, because the fixed on-wire
overhead in the source is 27 bytes, not 26. -/
theorem claim_C1_counterexample :
    parse_uplink_frame (List.replicate 26 0) = .error .shortFrame ∧
    ¬ ((List.replicate 26 (0 : Nat)).length < 26) :=
  ⟨rfl, by decide⟩

/-- C1 (amended). Frame-size arithmetic with the source's constant 27: the
decoder rejects a byte string as ShortFrame exactly when its length is below
27; it rejects it as LengthMismatch exactly when it is at least 27 bytes,
starts with the sync word, and its length differs from
`27 + Packet_Length` (the little-endian u16 at offset 2); every successfully
decoded frame's total size equals `27 + Packet_Length`, so a complete
weather frame with a 64-byte payload is 91 bytes long. -/
theorem claim_C1_frame_size (f : List Nat) :
    (parseIsShortFrame (parse_uplink_frame f) = true ↔ f.length < 27) ∧
    (parseIsLengthMismatch (parse_uplink_frame f) = true ↔
      (27 ≤ f.length ∧ f.take 2 = SYNC_BYTES ∧ f.length ≠ 27 + readU16LE f 2)) ∧
    (∀ pf, parse_uplink_frame f = .ok pf →
      pf.packet_length = readU16LE f 2 ∧ f.length = 27 + pf.packet_length) ∧
    (∀ pf, parse_uplink_frame f = .ok pf → pf.packet_length = 64 → f.length = 91) := by
  have shape := parse_shape f
  have conj3 : ∀ pf, parse_uplink_frame f = .ok pf →
      pf.packet_length = readU16LE f 2 ∧ f.length = 27 + pf.packet_length := by
    intro pf hok
    rcases shape with ⟨_, he⟩ | ⟨_, _, he⟩ | ⟨_, _, _, he⟩ | he | ⟨a, b, he⟩ |
      ⟨pt, he⟩ | ⟨k, he⟩ | ⟨pf', he, hpl, hlen⟩
    · rw [he] at hok; exact absurd hok (by simp)
    · rw [he] at hok; exact absurd hok (by simp)
    · rw [he] at hok; exact absurd hok (by simp)
    · rw [he] at hok; exact absurd hok (by simp)
    · rw [he] at hok; exact absurd hok (by simp)
    · rw [he] at hok; exact absurd hok (by simp)
    · rw [he] at hok; exact absurd hok (by simp)
    · rw [he] at hok
      obtain rfl : pf' = pf := Except.ok.inj hok
      exact ⟨hpl, hlen⟩
  refine ⟨⟨?_, ?_⟩, ⟨?_, ?_⟩, conj3, ?_⟩
  · intro ht
    rcases shape with ⟨hl, he⟩ | ⟨h1, h2, he⟩ | ⟨h1, h2, h3, he⟩ | he | ⟨a, b, he⟩ |
      ⟨pt, he⟩ | ⟨k, he⟩ | ⟨pf, he, hpl, hlen⟩
    · exact hl
    · rw [he] at ht; simp [parseIsShortFrame] at ht
    · rw [he] at ht; simp [parseIsShortFrame] at ht
    · rw [he] at ht; simp [parseIsShortFrame] at ht
    · rw [he] at ht; simp [parseIsShortFrame] at ht
    · rw [he] at ht; simp [parseIsShortFrame] at ht
    · rw [he] at ht; simp [parseIsShortFrame] at ht
    · rw [he] at ht; simp [parseIsShortFrame] at ht
  · intro hl
    rw [parse_eq_of_short f hl]
    rfl
  · intro ht
    rcases shape with ⟨hl, he⟩ | ⟨h1, h2, he⟩ | ⟨h1, h2, h3, he⟩ | he | ⟨a, b, he⟩ |
      ⟨pt, he⟩ | ⟨k, he⟩ | ⟨pf, he, hpl, hlen⟩
    · rw [he] at ht; simp [parseIsLengthMismatch] at ht
    · rw [he] at ht; simp [parseIsLengthMismatch] at ht
    · exact ⟨by omega, h2, h3⟩
    · rw [he] at ht; simp [parseIsLengthMismatch] at ht
    · rw [he] at ht; simp [parseIsLengthMismatch] at ht
    · rw [he] at ht; simp [parseIsLengthMismatch] at ht
    · rw [he] at ht; simp [parseIsLengthMismatch] at ht
    · rw [he] at ht; simp [parseIsLengthMismatch] at ht
  · rintro ⟨hle, hsync, hne⟩
    rw [parse_eq_of_lengthMismatch f (by omega) hsync hne]
    rfl
  · intro pf hok h64
    have := (conj3 pf hok).2
    omega

/-- Witness for C1 at a concrete five-byte input. -/
theorem claim_C1_witness :
    parseIsShortFrame (parse_uplink_frame (List.replicate 5 0)) = true :=
  (claim_C1_frame_size (List.replicate 5 0)).1.mpr (by decide)

/-- Concrete frame rejected at the short-frame site: 26 zero bytes. -/
def c7ShortInput : List Nat := List.replicate 26 0

/-- Concrete frame rejected at the bad-end site: correct sync, declared
length 0 matching a 27-byte total, but final byte 0 instead of `0x96`. -/
def c7BadEndInput : List Nat := [0x5A, 0xA5] ++ List.replicate 25 0

/-- C7 (counterexample). Two different failures of the claimed taxonomy —
a short frame and a bad end byte — are raised as the same Python exception
class (the base `I1ProtocolError`), so the seven failures are not surfaced
as distinct error kinds distinguishable by the caller. -/
theorem claim_C7_counterexample :
    parse_uplink_frame c7ShortInput = .error .shortFrame ∧
    parse_uplink_frame c7BadEndInput = .error .badEnd ∧
    ParseFailure.shortFrame ≠ ParseFailure.badEnd ∧
    ParseFailure.shortFrame.pyClass = ParseFailure.badEnd.pyClass :=
  ⟨rfl, rfl, by decide, rfl⟩

/-- C7 (amended). `parse_uplink_frame` checks its preconditions in the
order short-frame, bad-sync, length-mismatch, bad-end, CRC-mismatch,
unsupported-packet-type, payload-truncated; bad-sync, CRC-mismatch and
unsupported-packet-type raise dedicated exception classes, while
short-frame, length-mismatch, bad-end and payload-truncated are all raised
as the base `I1ProtocolError` class (distinguishable only by message
text). -/
theorem claim_C7_error_order :
    (∀ f : List Nat, f.length < 27 → parse_uplink_frame f = .error .shortFrame) ∧
    (∀ f : List Nat, ¬ f.length < 27 → f.take 2 ≠ SYNC_BYTES →
      parse_uplink_frame f = .error .badSync) ∧
    (∀ f : List Nat, ¬ f.length < 27 → f.take 2 = SYNC_BYTES →
      f.length ≠ 27 + readU16LE f 2 →
      parse_uplink_frame f = .error (.lengthMismatch f.length (27 + readU16LE f 2))) ∧
    (∀ f : List Nat, ¬ f.length < 27 → f.take 2 = SYNC_BYTES →
      f.length = 27 + readU16LE f 2 → f.getD (f.length - 1) 0 ≠ END_BYTE →
      parse_uplink_frame f = .error .badEnd) ∧
    (∀ f : List Nat, ¬ f.length < 27 → f.take 2 = SYNC_BYTES →
      f.length = 27 + readU16LE f 2 → f.getD (f.length - 1) 0 = END_BYTE →
      readU16LE f (f.length - 3) ≠ crc16_modbus ((f.drop 2).take (f.length - 5)) →
      parse_uplink_frame f = .error (.crcMismatch (readU16LE f (f.length - 3))
        (crc16_modbus ((f.drop 2).take (f.length - 5))))) ∧
    (∀ f : List Nat, ¬ f.length < 27 → f.take 2 = SYNC_BYTES →
      f.length = 27 + readU16LE f 2 → f.getD (f.length - 1) 0 = END_BYTE →
      readU16LE f (f.length - 3) = crc16_modbus ((f.drop 2).take (f.length - 5)) →
      f.getD 22 0 ≠ PACKET_TYPE_WEATHER → f.getD 22 0 ≠ PACKET_TYPE_TOWER_TILT →
      f.getD 22 0 ≠ PACKET_TYPE_LINE_TEMPERATURE → f.getD 22 0 ≠ PACKET_TYPE_HEARTBEAT →
      parse_uplink_frame f = .error (.unsupportedPacketType (f.getD 22 0))) ∧
    (∀ f : List Nat, ¬ f.length < 27 → f.take 2 = SYNC_BYTES →
      f.length = 27 + readU16LE f 2 → f.getD (f.length - 1) 0 = END_BYTE →
      readU16LE f (f.length - 3) = crc16_modbus ((f.drop 2).take (f.length - 5)) →
      f.getD 22 0 = PACKET_TYPE_WEATHER →
      ((f.drop 24).take (readU16LE f 2)).length < 59 →
      parse_uplink_frame f = .error (.payloadTruncated .weather)) ∧
    (ParseFailure.badSync.pyClass = .frameSyncError) ∧
    (∀ a b : Nat, (ParseFailure.crcMismatch a b).pyClass = .crcMismatchError) ∧
    (∀ pt : Nat, (ParseFailure.unsupportedPacketType pt).pyClass = .unsupportedPacketTypeError) ∧
    (ParseFailure.shortFrame.pyClass = .protocolError) ∧
    (∀ a b : Nat, (ParseFailure.lengthMismatch a b).pyClass = .protocolError) ∧
    (ParseFailure.badEnd.pyClass = .protocolError) ∧
    (∀ k : TruncKind, (ParseFailure.payloadTruncated k).pyClass = .protocolError) := by
  refine ⟨parse_eq_of_short, parse_eq_of_badSync, parse_eq_of_lengthMismatch,
    parse_eq_of_badEnd, parse_eq_of_crcMismatch, parse_eq_of_unsupported,
    ?_, rfl, fun a b => rfl, fun pt => rfl, rfl, fun a b => rfl, rfl, fun k => rfl⟩
  intro f h1 h2 h3 h4 h5 h6 hshort
  rw [parse_eq_of_weather f h1 h2 h3 h4 h5 h6]
  unfold parseWeatherPayload
  rw [if_pos hshort]
  rfl

/-- Witness for C7 at a concrete four-byte input. -/
theorem claim_C7_witness :
    parse_uplink_frame (List.replicate 4 0x55) = .error .shortFrame :=
  claim_C7_error_order.1 (List.replicate 4 0x55) (by decide)

/-- Cmd id used by the C10 frame family (ASCII "LT-01", zero-padded). -/
def c10CmdId : List Nat :=
  [0x4C, 0x54, 0x2D, 0x30, 0x31] ++ List.replicate 12 0

/-- Line-temperature content (27 bytes) used by the C10 frame family. -/
def c10Content : List Nat :=
  c10CmdId ++ [1, 1] ++ [0, 202, 154, 59] ++ [0, 0, 160, 66]

/-- CRC-covered body of the C10 frame: declared length 27, line-temperature
packet type `0x33`, frame number 7, and Frame_Type byte `b`. -/
def c10Body (b : Nat) : List Nat :=
  [27, 0] ++ c10CmdId ++ [b, 0x33, 7] ++ c10Content

/-- A frame that is valid in every respect (sync, declared length, end byte,
CRC recomputed for the body, supported packet type, sufficient payload)
except that its Frame_Type byte at offset 21 is the arbitrary byte `b`. -/
def c10Frame (b : Nat) : List Nat :=
  SYNC_BYTES ++ c10Body b ++ u16LE (crc16_modbus (c10Body b)) ++ [END_BYTE]

/-- Projection: the decoded `frame_type` on success, nothing on failure. -/
def parseFrameTypeOf : Except ParseFailure ParsedFrame → Option Nat
  | .ok pf => some pf.frame_type
  | .error _ => none

set_option maxRecDepth 100000 in
set_option maxHeartbeats 8000000 in
theorem c10_all_bytes :
    ((List.range 256).all
      (fun b => parseFrameTypeOf (parse_uplink_frame (c10Frame b)) == some b)) = true := by
  decide

/-- C10 (confirmed). The decoder never validates the Frame_Type byte: for
every byte value `b` (including the downlink value `0x02`), the frame
`c10Frame b` — valid in every other respect, with its Frame_Type byte at
offset 21 set to `b` and the CRC recomputed accordingly — is decoded
successfully, and the returned frame reports `b` as `frame_type`. -/
theorem claim_C10_frame_type_unchecked :
    ∀ b : Fin 256, parseFrameTypeOf (parse_uplink_frame (c10Frame b.val)) = some b.val := by
  intro b
  have h := c10_all_bytes
  rw [List.all_eq_true] at h
  have hb : b.val ∈ List.range 256 := List.mem_range.mpr b.isLt
  have hbeq := h _ hb
  simpa using hbeq

/-- C2 (confirmed). Foreign-object fusion: the record returned by
`add_weather` carries `wire_foreign_object = 1` exactly when, at insertion
time, an alert entry exists for the payload's component, that entry is
active, and the payload timestamp is within `alert_timeout` of the entry's
timestamp; the flag is always 0 or 1; the line-temperature ingest sets the
entry's active bit to `line_temperature >= alert_threshold`; and a
line-temperature ingest never changes records already in the ring, so the
flag is frozen onto each record. -/
theorem claim_C2_foreign_object_fusion (s : I1DataStore) (p : WeatherPayloadQ) (fn : Nat) :
    ((s.add_weather p fn).1.wire_foreign_object = 1 ↔
      (∃ ats : Int, alistGet s.lineTempAlerts p.component_id = some (ats, true) ∧
        p.time_stamp - ats ≤ s.lineTempAlertTimeout)) ∧
    ((s.add_weather p fn).1.wire_foreign_object = 0 ∨
      (s.add_weather p fn).1.wire_foreign_object = 1) ∧
    (∀ lp : LineTempPayloadQ,
      alistGet (s.add_line_temperature lp).lineTempAlerts lp.component_id =
        some (lp.time_stamp, decide (s.lineTempAlertThreshold ≤ lp.line_temperature))) ∧
    (∀ lp : LineTempPayloadQ,
      (s.add_line_temperature lp).weatherRecords = s.weatherRecords) := by
  have hflag : (s.add_weather p fn).1.wire_foreign_object
      = s.getWireFlag p.component_id p.time_stamp := rfl
  refine ⟨?_, ?_, ?_, fun lp => rfl⟩
  · rw [hflag]
    unfold I1DataStore.getWireFlag
    rcases halert : alistGet s.lineTempAlerts p.component_id with _ | ⟨ats, active⟩
    · simp
    · cases active
      · simp
      · simp only [reduceCtorEq, if_false, if_neg]
        constructor
        · intro h1
          by_cases hto : s.lineTempAlertTimeout < p.time_stamp - ats
          · rw [if_pos hto] at h1; exact absurd h1 (by decide)
          · exact ⟨ats, rfl, Int.not_lt.mp hto⟩
        · rintro ⟨ats', hsome, hle⟩
          obtain ⟨rfl, -⟩ : ats = ats' ∧ True := by
            simpa using Option.some.inj hsome
          rw [if_neg (Int.not_lt.mpr hle)]
  · rw [hflag]
    unfold I1DataStore.getWireFlag
    rcases alistGet s.lineTempAlerts p.component_id with _ | ⟨ats, active⟩
    · exact Or.inl rfl
    · cases active
      · simp
      · by_cases hto : s.lineTempAlertTimeout < p.time_stamp - ats
        · simp [hto]
        · simp [hto]
  · intro lp
    simp [I1DataStore.add_line_temperature, alistGet, alistSet, List.find?]


/-- A bounded-deque fold keeps exactly the newest `M` pushed elements. -/
theorem foldl_pushRing (M : Nat) :
    ∀ (xs acc : List StoredRecord), acc.length ≤ M →
      xs.foldl (pushRing M) acc = (acc ++ xs).drop ((acc ++ xs).length - M) := by
  intro xs
  induction xs with
  | nil =>
    intro acc hacc
    simp [Nat.sub_eq_zero_of_le, hacc]
  | cons x xs ih =>
    intro acc hacc
    have hstep : pushRing M acc x = (acc ++ [x]).drop ((acc.length + 1) - M) := by
      simp only [pushRing]
      split
      · simp [List.length_append]
      · rename_i hnot
        have h0 : acc.length + 1 - M = 0 := by
          simp only [List.length_append, List.length_cons, List.length_nil] at hnot
          omega
        simp [h0]
    have hlen : (pushRing M acc x).length ≤ M := by
      rw [hstep]
      simp only [List.length_drop, List.length_append, List.length_cons, List.length_nil]
      omega
    rw [List.foldl_cons, ih _ hlen, hstep]
    have hdle : acc.length + 1 - M ≤ (acc ++ [x]).length := by
      simp only [List.length_append, List.length_cons, List.length_nil]
      omega
    rw [← List.drop_append_of_le_length hdle, List.drop_drop]
    simp only [List.append_assoc, List.singleton_append]
    congr 1
    simp only [List.length_append, List.length_drop, List.length_cons, List.length_nil]
    omega

/-- Folding `add_weather` over a payload list (the state after N weather
ingests in order). -/
def ingestWeatherList (s : I1DataStore) (ws : List (WeatherPayloadQ × Nat)) : I1DataStore :=
  ws.foldl (fun st pw => (st.add_weather pw.1 pw.2).2) s

/-- During a run of weather ingests the ring evolves by `pushRing` over the
records built against the (unchanged) alert table. -/
theorem ingestWeatherList_records (ws : List (WeatherPayloadQ × Nat)) :
    ∀ s : I1DataStore, (ingestWeatherList s ws).weatherRecords
      = (ws.map (fun pw => s.recordOf pw.1 pw.2)).foldl (pushRing s.maxRecords)
          s.weatherRecords := by
  induction ws with
  | nil => intro s; rfl
  | cons pw ws ih =>
    intro s
    have h := ih ((s.add_weather pw.1 pw.2).2)
    exact h

/-- C5 (confirmed). Ring bound and eviction order: after ingesting the list
`ws` of weather payloads into a fresh store with `max_records = M >= 1`, the
count is `min N M`; the ring holds the records in arrival order with the
oldest `N - M` evicted from the front; and for `N > M` the first record of
`get_all_weather` is the `(N - M + 1)`-th ingested record. -/
theorem claim_C5_ring_bound (M : Nat) (hM : 1 ≤ M) (threshold : ℚ) (timeout : Int)
    (ws : List (WeatherPayloadQ × Nat)) :
    (ingestWeatherList (I1DataStore.init M threshold timeout) ws).get_weather_count
        = min ws.length M ∧
    (ingestWeatherList (I1DataStore.init M threshold timeout) ws).get_all_weather
        = (ws.map (fun pw => (I1DataStore.init M threshold timeout).recordOf pw.1 pw.2)).drop
            (ws.length - M) ∧
    (M < ws.length →
      (ingestWeatherList (I1DataStore.init M threshold timeout) ws).get_all_weather.head?
        = (ws.map (fun pw => (I1DataStore.init M threshold timeout).recordOf pw.1 pw.2))[ws.length - M]?) := by
  set s0 := I1DataStore.init M threshold timeout with hs0
  have hmax : s0.maxRecords = M := by
    rw [hs0]
    simp [I1DataStore.init]
    omega
  have hrec : s0.weatherRecords = [] := rfl
  have hall : (ingestWeatherList s0 ws).get_all_weather
      = (ws.map (fun pw => s0.recordOf pw.1 pw.2)).drop (ws.length - M) := by
    show (ingestWeatherList s0 ws).weatherRecords = _
    rw [ingestWeatherList_records, hmax, hrec]
    rw [foldl_pushRing M _ [] (by simp)]
    simp
  refine ⟨?_, hall, ?_⟩
  · show (ingestWeatherList s0 ws).get_all_weather.length = _
    rw [hall]
    simp only [List.length_drop, List.length_map]
    omega
  · intro hlt
    rw [hall, List.head?_drop]

/-- Invariant-carrying form of the cursor claim: if `dirty` says whether the
counter has moved past the cursor, the run produces exactly the
spec-predicted poll answers. -/
theorem runStoreOps_eq_cursorSpecAux (ops : List StoreOp) :
    ∀ (s : I1DataStore) (dirty : Bool),
      s.lastUpdateCounterChecked ≤ s.updateCounter →
      (dirty = true ↔ s.lastUpdateCounterChecked < s.updateCounter) →
      runStoreOps s ops = cursorSpecAux dirty ops := by
  induction ops with
  | nil => intro s dirty _ _; rfl
  | cons op rest ih =>
    intro s dirty hle hdirty
    cases op with
    | weather p fn =>
      show runStoreOps ((s.add_weather p fn).2) rest = cursorSpecAux true rest
      exact ih _ true (by simp [I1DataStore.add_weather]; omega)
        (by simp [I1DataStore.add_weather]; omega)
    | lineTemp p =>
      show runStoreOps (s.add_line_temperature p) rest = cursorSpecAux true rest
      exact ih _ true (by simp [I1DataStore.add_line_temperature]; omega)
        (by simp [I1DataStore.add_line_temperature]; omega)
    | towerTilt p =>
      show runStoreOps (s.add_tower_tilt p) rest = cursorSpecAux true rest
      exact ih _ true (by simp [I1DataStore.add_tower_tilt]; omega)
        (by simp [I1DataStore.add_tower_tilt]; omega)
    | heartbeat p =>
      show runStoreOps (s.add_heartbeat p) rest = cursorSpecAux true rest
      exact ih _ true (by simp [I1DataStore.add_heartbeat]; omega)
        (by simp [I1DataStore.add_heartbeat]; omega)
    | poll =>
      show (s.is_data_updated).1 :: runStoreOps (s.is_data_updated).2 rest
          = dirty :: cursorSpecAux false rest
      unfold I1DataStore.is_data_updated
      by_cases h : s.updateCounter ≠ s.lastUpdateCounterChecked
      · rw [if_pos h]
        have hd : dirty = true := hdirty.mpr (by omega)
        rw [hd]
        have := ih { s with lastUpdateCounterChecked := s.updateCounter } false
          (by simp) (by simp)
        simpa using this
      · rw [if_neg h]
        have heq : s.updateCounter = s.lastUpdateCounterChecked := not_ne_iff.mp h
        have hd : dirty = false := by
          rcases Bool.eq_false_or_eq_true dirty with h1 | h0
          · exact absurd (hdirty.mp h1) (by omega)
          · exact h0
        rw [hd]
        have := ih s false hle (by rw [heq]; simp)
        simpa using this

/-- C8 (confirmed). Update-counter cursor: over any sequence of store
writes and `is_data_updated()` polls starting from a fresh store, each poll
returns true exactly when at least one write occurred since the previous
poll (`cursorSpec`); in particular a second poll with no intervening writes
always returns false. -/
theorem claim_C8_update_cursor (max_records : Nat) (threshold : ℚ) (timeout : Int)
    (ops : List StoreOp) :
    runStoreOps (I1DataStore.init max_records threshold timeout) ops = cursorSpec ops ∧
    (∀ s : I1DataStore, ((s.is_data_updated).2.is_data_updated).1 = false) := by
  constructor
  · exact runStoreOps_eq_cursorSpecAux ops _ false (by simp [I1DataStore.init])
      (by simp [I1DataStore.init])
  · intro s
    unfold I1DataStore.is_data_updated
    by_cases h : s.updateCounter ≠ s.lastUpdateCounterChecked
    · rw [if_pos h]
      simp
    · rw [if_neg h]
      rw [if_neg h]

/-- Weather payload with a given component id and timestamp, all numeric
fields zero (used by concrete witnesses). -/
def mkWeatherQ (cid : List Nat) (ts : Int) : WeatherPayloadQ :=
  { component_id := cid
    time_stamp := ts
    average_wind_speed := 0
    average_wind_direction := 0
    max_wind_speed := 0
    extreme_wind_speed := 0
    standard_wind_speed := 0
    air_temperature := 0
    humidity := 0
    air_pressure := 0
    precipitation := 0
    precipitation_intensity := 0
    radiation_intensity := 0 }

/-- Store used by the C2 witness: defaults, with one active alert for
component `[65]` stamped at time 100. -/
def c2Store : I1DataStore :=
  { I1DataStore.init 288 80 600 with lineTempAlerts := [([65], (100, true))] }

/-- Witness for C2: an active alert at time 100 and a weather frame at
time 120 yield flag 1. -/
theorem claim_C2_witness :
    (c2Store.add_weather (mkWeatherQ [65] 120) 7).1.wire_foreign_object = 1 :=
  (claim_C2_foreign_object_fusion c2Store (mkWeatherQ [65] 120) 7).1.mpr
    ⟨100, rfl, by decide⟩

/-- Ingest sequence used by the C5 witness: three weather frames into a
two-slot ring. -/
def c5Payloads : List (WeatherPayloadQ × Nat) :=
  [(mkWeatherQ [87] 1, 1), (mkWeatherQ [87] 2, 2), (mkWeatherQ [87] 3, 3)]

/-- Witness for C5: three ingests into a two-slot ring leave two records. -/
theorem claim_C5_witness :
    (1 ≤ 2) ∧
    (ingestWeatherList (I1DataStore.init 2 80 600) c5Payloads).get_weather_count = 2 := by
  refine ⟨by decide, ?_⟩
  have h := (claim_C5_ring_bound 2 (by decide) 80 600 c5Payloads).1
  rw [h]
  decide

/-- Dropping a zero-run prefix under `dropWhile (= 0)`. -/
theorem dropWhile_zero_replicate (n : Nat) :
    ∀ l : List Nat, (List.replicate n 0 ++ l).dropWhile (fun b => b = 0)
      = l.dropWhile (fun b => b = 0) := by
  induction n with
  | zero => intro l; rfl
  | succ n ih =>
    intro l
    rw [List.replicate_succ, List.cons_append, List.dropWhile_cons_of_pos (by decide)]
    exact ih l

/-- Right-stripping zeros undoes zero padding when the original byte string
has no trailing zero byte. -/
theorem rstripZeros_append_replicate (xs : List Nat) (k : Nat)
    (h : xs.getLast? ≠ some 0) :
    rstripZeros (xs ++ List.replicate k 0) = xs := by
  unfold rstripZeros
  rw [List.reverse_append, List.reverse_replicate, dropWhile_zero_replicate]
  have hkeep : xs.reverse.dropWhile (fun b => b = 0) = xs.reverse := by
    cases hx : xs.reverse with
    | nil => rfl
    | cons y ys =>
      have hy : xs.getLast? = some y := by
        rw [← List.head?_reverse, hx]
        rfl
      have hy0 : ¬ (y = 0) := fun h0 => h (by rw [hy, h0])
      rw [List.dropWhile_cons_of_neg (by simpa using hy0)]
  rw [hkeep, List.reverse_reverse]

/-- Decoding undoes `encodeCmdId` for an ASCII cmd id of at most 17 bytes
with no trailing NUL. -/
theorem decode_ascii_encodeCmdId (cmd : List Nat) (hascii : ∀ b ∈ cmd, b < 128)
    (hlen : cmd.length ≤ 17) (htrail : cmd.getLast? ≠ some 0) :
    decode_ascii (encodeCmdId cmd) = cmd := by
  have hfilter : cmd.filter (fun b => b < 128) = cmd :=
    List.filter_eq_self.mpr (fun a ha => by simpa using hascii a ha)
  unfold encodeCmdId
  rw [hfilter, List.take_of_length_le hlen]
  unfold decode_ascii
  rw [rstripZeros_append_replicate cmd _ htrail, hfilter]

theorem encodeCmdId_length (cmd : List Nat) : (encodeCmdId cmd).length = 17 := by
  unfold encodeCmdId
  simp only [List.length_append, List.length_replicate, List.length_take]
  omega

/-- Peeking the header of any byte string of the downlink frame shape. -/
theorem safe_peek_header_shape (pl0 pl1 a b c : Nat) (mid rest : List Nat)
    (hm : mid.length = 17) :
    safe_peek_header (0x5A :: 0xA5 :: pl0 :: pl1 :: (mid ++ (a :: b :: c :: rest)))
      = some (decode_ascii mid, b, c) := by
  have hlen : (0x5A :: 0xA5 :: pl0 :: pl1 :: (mid ++ (a :: b :: c :: rest))).length
      = 24 + rest.length := by
    simp [hm]
    omega
  unfold safe_peek_header
  rw [if_neg (by omega)]
  have htake : ((0x5A :: 0xA5 :: pl0 :: pl1 :: (mid ++ (a :: b :: c :: rest))).drop 4).take 17
      = mid := by
    show (mid ++ (a :: b :: c :: rest)).take 17 = mid
    exact List.take_left' hm
  have hgb : (0x5A :: 0xA5 :: pl0 :: pl1 :: (mid ++ (a :: b :: c :: rest))).getD 22 0 = b := by
    show (mid ++ (a :: b :: c :: rest)).getD 18 0 = b
    rw [List.getD_eq_getElem?_getD, List.getElem?_append_right (by omega)]
    rw [hm]
    rfl
  have hgc : (0x5A :: 0xA5 :: pl0 :: pl1 :: (mid ++ (a :: b :: c :: rest))).getD 23 0 = c := by
    show (mid ++ (a :: b :: c :: rest)).getD 19 0 = c
    rw [List.getD_eq_getElem?_getD, List.getElem?_append_right (by omega)]
    rw [hm]
    simp
  rw [htake, hgb, hgc]

/-- Cons-normal form of an ACK header followed by any tail. -/
theorem ackHeaderBytes_cons (cmd : List Nat) (pt fn : Nat) (s : Bool) (m ct : Nat)
    (tail : List Nat) :
    ackHeaderBytes cmd pt fn s m ct ++ tail
      = 0x5A :: 0xA5 :: ((ackContent pt s m ct).length % 256)
          :: ((ackContent pt s m ct).length / 256 % 256)
          :: (encodeCmdId cmd ++ (FRAME_TYPE_DOWNLINK :: (ackTypeFor pt &&& 0xFF)
            :: (fn &&& 0xFF) :: (ackContent pt s m ct ++ tail))) := by
  unfold ackHeaderBytes
  simp [SYNC_BYTES, u16LE]

theorem and255_eq (x : Nat) (hx : x < 256) : x &&& 255 = x := by
  have h : x &&& (2 ^ 8 - 1) = x :=
    Nat.and_pow_two_sub_one_of_lt_two_pow (by norm_num [hx])
  norm_num at h
  exact h

theorem ackContent_length (pt : Nat) (s : Bool) (m ct : Nat) :
    (ackContent pt s m ct).length = if pt = PACKET_TYPE_HEARTBEAT then 6 else 1 := by
  unfold ackContent
  split
  · simp [u32LE]
  · simp

/-- C4 (confirmed). ACK encode/decode-header identity: for every cmd id that
is an ASCII byte string of at most 17 bytes with no trailing NUL, every
uplink packet type in {0x31, 0x32, 0x33, 0x61} and every frame number in
0..255, peeking the header of the built ACK returns the same cmd id, the
mapped ACK packet type (0xB1/0xB2/0xB3/0xE1) and the same frame number; and
the frame's declared Packet_Length field equals the length of its Content
(1 byte for weather/tilt/temperature ACKs, 6 for the heartbeat ACK). -/
theorem claim_C4_ack_header_identity (cmd_id : List Nat) (packet_type frame_no : Nat)
    (success : Bool) (mode clocktime : Nat)
    (hascii : ∀ b ∈ cmd_id, b < 128)
    (hlen : cmd_id.length ≤ 17)
    (htrail : cmd_id.getLast? ≠ some 0)
    (hpt : packet_type = PACKET_TYPE_WEATHER ∨ packet_type = PACKET_TYPE_TOWER_TILT ∨
      packet_type = PACKET_TYPE_LINE_TEMPERATURE ∨ packet_type = PACKET_TYPE_HEARTBEAT)
    (hfn : frame_no < 256) :
    safe_peek_header (build_ack_frame cmd_id packet_type frame_no success mode clocktime)
      = some (cmd_id, ackTypeFor packet_type, frame_no) ∧
    readU16LE (build_ack_frame cmd_id packet_type frame_no success mode clocktime) 2
      = (ackContent packet_type success mode clocktime).length ∧
    (ackContent packet_type success mode clocktime).length
      = (if packet_type = PACKET_TYPE_HEARTBEAT then 6 else 1) := by
  have hframe := ackHeaderBytes_cons cmd_id packet_type frame_no success mode clocktime
    (u16LE (crc16_modbus
      ((ackHeaderBytes cmd_id packet_type frame_no success mode clocktime).drop 2))
      ++ [END_BYTE])
  have hbuild : build_ack_frame cmd_id packet_type frame_no success mode clocktime
      = ackHeaderBytes cmd_id packet_type frame_no success mode clocktime
        ++ (u16LE (crc16_modbus
            ((ackHeaderBytes cmd_id packet_type frame_no success mode clocktime).drop 2))
          ++ [END_BYTE]) := by
    unfold build_ack_frame
    rw [List.append_assoc]
  have hapt : ackTypeFor packet_type &&& 0xFF = ackTypeFor packet_type := by
    rcases hpt with h | h | h | h <;> rw [h] <;> decide
  have hfnb : frame_no &&& 0xFF = frame_no := and255_eq frame_no hfn
  refine ⟨?_, ?_, ackContent_length packet_type success mode clocktime⟩
  · rw [hbuild, hframe]
    rw [safe_peek_header_shape _ _ _ _ _ _ _ (encodeCmdId_length cmd_id)]
    rw [decode_ascii_encodeCmdId cmd_id hascii hlen htrail, hapt, hfnb]
  · rw [hbuild, hframe]
    show ((ackContent packet_type success mode clocktime).length % 256)
        + 256 * ((ackContent packet_type success mode clocktime).length / 256 % 256)
      = (ackContent packet_type success mode clocktime).length
    rw [ackContent_length]
    split <;> decide

/-- Witness for C4: a weather ACK for cmd id "WS" and frame number 7. -/
theorem claim_C4_witness :
    safe_peek_header (build_ack_frame [87, 83] 0x31 7 true 0 1700000000)
      = some ([87, 83], 0xB1, 7) := by
  have h := (claim_C4_ack_header_identity [87, 83] 0x31 7 true 0 1700000000
    (by decide) (by decide) (by decide) (Or.inl rfl) (by decide)).1
  rw [h]
  decide

/-- Boolean predicate on byte strings: no adjacent `5A A5` pair occurs, so
the extractor's scan cannot find a sync word inside. -/
def syncFree : List Nat → Bool
  | a :: b :: r => !(a = 0x5A && b = 0xA5) && syncFree (b :: r)
  | _ => true

/-- A two-element `take` pins down the first two elements. -/
theorem take_two_eq (l : List Nat) (a b : Nat) (h : l.take 2 = [a, b]) :
    ∃ t, l = a :: b :: t := by
  cases l with
  | nil => simp at h
  | cons x l1 =>
    cases l1 with
    | nil => simp at h
    | cons y t =>
      refine ⟨t, ?_⟩
      simp only [List.take_succ_cons, List.take_zero] at h
      obtain ⟨rfl, rfl, -⟩ := by simpa using h
      rfl

/-- Reading a 16-bit word inside the left part of an append. -/
theorem readU16LE_append (f rest : List Nat) (off : Nat) (h : off + 1 < f.length) :
    readU16LE (f ++ rest) off = readU16LE f off := by
  unfold readU16LE
  rw [List.getD_eq_getElem?_getD, List.getD_eq_getElem?_getD,
    List.getD_eq_getElem?_getD, List.getD_eq_getElem?_getD]
  rw [List.getElem?_append_left (by omega), List.getElem?_append_left h]

/-- A found sync index points at the sync bytes. -/
theorem findSync_drop (l : List Nat) : ∀ i, findSync l = some i →
    ∃ rest, l.drop i = 0x5A :: 0xA5 :: rest := by
  induction l with
  | nil => intro i h; simp [findSync] at h
  | cons a tl ih =>
    intro i h
    cases tl with
    | nil => simp [findSync] at h
    | cons b r =>
      by_cases hab : a = 0x5A ∧ b = 0xA5
      · rw [findSync, if_pos hab] at h
        obtain rfl : (0 : Nat) = i := Option.some.inj h
        exact ⟨r, by rw [hab.1, hab.2]; rfl⟩
      · rw [findSync, if_neg hab] at h
        obtain ⟨j, hj, rfl⟩ : ∃ j, findSync (b :: r) = some j ∧ i = j + 1 := by
          cases hfs : findSync (b :: r) with
          | none => rw [hfs] at h; simp at h
          | some j =>
            rw [hfs] at h
            exact ⟨j, rfl, by simpa using h.symm⟩
        simpa [List.drop_succ_cons] using ih j hj

/-- Sync-free lists have sync-free tails. -/
theorem syncFree_tail (a : Nat) (tl : List Nat) (h : syncFree (a :: tl) = true) :
    syncFree tl = true := by
  cases tl with
  | nil => rfl
  | cons b r =>
    rw [syncFree] at h
    simp only [Bool.and_eq_true] at h
    exact h.2

/-- In a sync-free list followed by a frame, the first sync word is exactly
at the frame boundary. -/
theorem findSync_after_garbage (g : List Nat) :
    ∀ t : List Nat, syncFree g = true →
      findSync (g ++ (0x5A :: 0xA5 :: t)) = some g.length := by
  induction g with
  | nil => intro t _; simp [findSync]
  | cons a g ih =>
    intro t hg
    cases g with
    | nil =>
      show findSync (a :: 0x5A :: 0xA5 :: t) = some 1
      rw [findSync, if_neg (by simp), findSync, if_pos (by simp)]
      rfl
    | cons b r =>
      have hpair : ¬ (a = 0x5A ∧ b = 0xA5) := by
        intro hab
        rw [syncFree, hab.1, hab.2] at hg
        simp at hg
      show findSync (a :: b :: (r ++ (0x5A :: 0xA5 :: t))) = some (r.length + 2)
      rw [findSync, if_neg hpair]
      rw [show b :: (r ++ (0x5A :: 0xA5 :: t)) = (b :: r) ++ (0x5A :: 0xA5 :: t) from rfl]
      rw [ih t (syncFree_tail a (b :: r) hg)]
      simp

/-- A byte string the extractor can slice as one whole frame: sync word,
declared length matching (`27 + Packet_Length`), nonzero declared length,
and within the 4096-byte bound.  Every parse-valid frame of at most 4096
bytes satisfies this. -/
def extractableFrame (f : List Nat) : Prop :=
  f.take 2 = SYNC_BYTES ∧ f.length = 27 + readU16LE f 2 ∧
    1 ≤ readU16LE f 2 ∧ f.length ≤ 4096

/-- When the first sync sits at index `i` and a whole extractable frame
follows it, `_extract_frame` returns exactly that frame and the bytes after
it. -/
theorem extract_frame_sync_at (b : List Nat) (i : Nat) (f rest : List Nat)
    (hb : b ≠ []) (hfs : findSync b = some i) (hdrop : b.drop i = f ++ rest)
    (h : extractableFrame f) : extract_frame b = (some f, rest) := by
  obtain ⟨hs, hl, hp, hm⟩ := h
  have hflen : 28 ≤ f.length := by
    rw [hl]
    omega
  have hread : readU16LE (f ++ rest) 2 = readU16LE f 2 :=
    readU16LE_append f rest 2 (by omega)
  unfold extract_frame
  rw [if_neg hb, hfs]
  dsimp only
  rw [hdrop, hread]
  rw [if_neg (by simp [List.length_append]; omega)]
  rw [if_neg (by omega)]
  rw [if_neg (by simp [List.length_append]; omega)]
  rw [← hl, List.take_left, List.drop_left]

/-- Whatever buffer it is given, when `_extract_frame` yields a frame that
frame is at least 28 bytes long, starts with the sync word, and is the
declared-length slice of the buffer. -/
theorem extract_frame_some (b f r : List Nat) (h : extract_frame b = (some f, r)) :
    28 ≤ f.length ∧ f.take 2 = SYNC_BYTES := by
  unfold extract_frame at h
  by_cases hb : b = []
  · rw [if_pos hb] at h
    simp at h
  rw [if_neg hb] at h
  cases hfs : findSync b with
  | none => rw [hfs] at h; simp at h
  | some idx =>
    rw [hfs] at h
    dsimp only at h
    by_cases h4 : (b.drop idx).length < 4
    · rw [if_pos h4] at h; simp at h
    rw [if_neg h4] at h
    by_cases hg : readU16LE (b.drop idx) 2 = 0 ∨ 27 + readU16LE (b.drop idx) 2 > 4096
    · rw [if_pos hg] at h; simp at h
    rw [if_neg hg] at h
    by_cases hlen : (b.drop idx).length < 27 + readU16LE (b.drop idx) 2
    · rw [if_pos hlen] at h; simp at h
    rw [if_neg hlen] at h
    simp only [Prod.mk.injEq, Option.some.inj] at h
    obtain ⟨hf, -⟩ := h
    have hf' : (b.drop idx).take (27 + readU16LE (b.drop idx) 2) = f := by
      simpa using hf
    push_neg at hg
    constructor
    · rw [← hf', List.length_take]
      omega
    · obtain ⟨rest, hrest⟩ := findSync_drop b idx hfs
      rw [← hf', List.take_take]
      have h2 : min 2 (27 + readU16LE (b.drop idx) 2) = 2 := by omega
      rw [h2, hrest]
      rfl

/-- C9 (confirmed). Header peek cannot fail on extracted frames: whenever
`_extract_frame` yields a frame, that frame begins with the sync bytes and
covers the 24-byte fixed header, so `_safe_peek_header` returns a value and
the handler's silent-drop branch is unreachable: the handler produces
exactly one ACK (success or failure) for every extractor-produced frame. -/
theorem claim_C9_peek_total (b f r : List Nat) (now : Nat)
    (h : extract_frame b = (some f, r)) :
    f.take 2 = SYNC_BYTES ∧ 24 ≤ f.length ∧
    (safe_peek_header f).isSome = true ∧
    (handleFrameAck now f).isSome = true := by
  obtain ⟨hlen, hsync⟩ := extract_frame_some b f r h
  have hpeek : (safe_peek_header f).isSome = true := by
    unfold safe_peek_header
    rw [if_neg (by omega)]
    rfl
  refine ⟨hsync, by omega, hpeek, ?_⟩
  unfold handleFrameAck
  cases hp : parse_uplink_frame f with
  | ok pf => rfl
  | error e =>
    cases hph : safe_peek_header f with
    | none => rw [hph] at hpeek; simp at hpeek
    | some t =>
      obtain ⟨c, pt, fn⟩ := t
      rfl

set_option maxRecDepth 10000 in
/-- Witness for C9: the valid 54-byte line-temperature frame `c10Frame 1`
extracted from a buffer equal to itself. -/
theorem claim_C9_witness :
    (safe_peek_header (c10Frame 1)).isSome = true ∧
    (handleFrameAck 0 (c10Frame 1)).isSome = true := by
  have h := claim_C9_peek_total (c10Frame 1) (c10Frame 1) [] 0 (by decide)
  exact ⟨h.2.2.1, h.2.2.2⟩

theorem extract_frame_nil : extract_frame ([] : List Nat) = (none, []) := rfl

/-- C6 (amended). Framing resilience holds for garbage free of the sync
word: for extractable frames f1 and f2 and any sync-free garbage g between
them, one handler extraction round over `f1 ++ g ++ f2` yields exactly the
two frames and an empty buffer.  And when the extractor does find a sync
word whose declared packet length is 0 or whose expected frame size exceeds
4096, it advances 2 bytes past that sync and returns no frame, which ends
the current extraction round (the handler resumes scanning only when more
data arrives), rather than continuing to scan within the same round. -/
theorem claim_C6_framing_resilience :
    (∀ f1 f2 g : List Nat,
      extractableFrame f1 → extractableFrame f2 → syncFree g = true →
      runExtractLoop (f1 ++ g ++ f2) = ([f1, f2], [])) ∧
    (∀ (b : List Nat) (i : Nat), b ≠ [] → findSync b = some i →
      ¬ (b.drop i).length < 4 →
      (readU16LE (b.drop i) 2 = 0 ∨ 27 + readU16LE (b.drop i) 2 > 4096) →
      runExtractLoop b = ([], (b.drop i).drop 2)) := by
  constructor
  · intro f1 f2 g h1 h2 hg
    have hs1 : f1.take 2 = [0x5A, 0xA5] := h1.1
    have hs2 : f2.take 2 = [0x5A, 0xA5] := h2.1
    obtain ⟨t1, hf1⟩ := take_two_eq f1 _ _ hs1
    obtain ⟨t2, hf2⟩ := take_two_eq f2 _ _ hs2
    have hlen1 : 28 ≤ f1.length := by
      rw [h1.2.1]
      have := h1.2.2.1
      omega
    have hlen2 : 28 ≤ f2.length := by
      rw [h2.2.1]
      have := h2.2.2.1
      omega
    rw [List.append_assoc]
    have e1 : extract_frame (f1 ++ (g ++ f2)) = (some f1, g ++ f2) := by
      refine extract_frame_sync_at (f1 ++ (g ++ f2)) 0 f1 (g ++ f2) ?_ ?_ ?_ h1
      · rw [hf1]
        simp
      · rw [hf1]
        show findSync (0x5A :: 0xA5 :: (t1 ++ (g ++ f2))) = some 0
        rw [findSync, if_pos ⟨rfl, rfl⟩]
      · rfl
    have e2 : extract_frame (g ++ f2) = (some f2, []) := by
      refine extract_frame_sync_at (g ++ f2) g.length f2 [] ?_ ?_ ?_ h2
      · intro hnil
        have : f2 = [] := by
          rcases List.append_eq_nil.mp hnil with ⟨-, h⟩
          exact h
        rw [this] at hlen2
        simp at hlen2
      · rw [hf2]
        exact findSync_after_garbage g t2 hg
      · rw [List.drop_left, List.append_nil]
    have hfuel : (f1 ++ (g ++ f2)).length + 1 = ((f1 ++ (g ++ f2)).length - 2) + 3 := by
      simp only [List.length_append]
      omega
    show extractLoopFuel ((f1 ++ (g ++ f2)).length + 1) (f1 ++ (g ++ f2)) = ([f1, f2], [])
    rw [hfuel]
    simp only [extractLoopFuel, e1, e2, extract_frame_nil]
  · intro b i hb hfs h4 hguard
    have hext : extract_frame b = (none, (b.drop i).drop 2) := by
      unfold extract_frame
      rw [if_neg hb, hfs]
      dsimp only
      rw [if_neg h4, if_pos hguard]
    show extractLoopFuel (b.length + 1) b = ([], (b.drop i).drop 2)
    have h1 : ∃ k, b.length + 1 = k + 1 := ⟨b.length, rfl⟩
    obtain ⟨k, hk⟩ := h1
    rw [hk]
    simp only [extractLoopFuel, hext]

/-- Garbage that itself contains a sync word with declared length 0. -/
def c6Garbage : List Nat := [0x5A, 0xA5, 0, 0]

set_option maxRecDepth 100000 in
/-- C6 (counterexample). With the parse-valid 54-byte frame `c10Frame 1` as
both frames and the 4-byte garbage `5A A5 00 00` between them, the
extraction loop yields only the first frame: the spurious sync inside the
garbage has declared length 0, so the extractor returns no frame and the
round ends with the second frame still unprocessed in the buffer — the
claim's "exactly the two frames within the same extraction round" fails. -/
theorem claim_C6_counterexample :
    parseFrameTypeOf (parse_uplink_frame (c10Frame 1)) = some 1 ∧
    runExtractLoop (c10Frame 1 ++ c6Garbage ++ c10Frame 1)
      = ([c10Frame 1], [0, 0] ++ c10Frame 1) ∧
    (runExtractLoop (c10Frame 1 ++ c6Garbage ++ c10Frame 1)).1
      ≠ [c10Frame 1, c10Frame 1] := by
  refine ⟨by decide, by decide, ?_⟩
  intro hcontra
  have h2 : runExtractLoop (c10Frame 1 ++ c6Garbage ++ c10Frame 1)
      = ([c10Frame 1], [0, 0] ++ c10Frame 1) := by decide
  rw [h2] at hcontra
  have hlen : ([c10Frame 1] : List (List Nat)).length
      = ([c10Frame 1, c10Frame 1] : List (List Nat)).length := by
    exact congrArg List.length hcontra
  simp at hlen

set_option maxRecDepth 100000 in
/-- Witness for C6: sync-free garbage `[1, 2, 3]` between two copies of the
valid frame `c10Frame 1` yields exactly the two frames. -/
theorem claim_C6_witness :
    runExtractLoop (c10Frame 1 ++ [1, 2, 3] ++ c10Frame 1)
      = ([c10Frame 1, c10Frame 1], []) :=
  claim_C6_framing_resilience.1 (c10Frame 1) (c10Frame 1) [1, 2, 3]
    (by refine ⟨by decide, by decide, by decide, by decide⟩)
    (by refine ⟨by decide, by decide, by decide, by decide⟩)
    (by decide)
